import Mathlib

/-!
# PaymentSystem: the in-memory ledger of `payment_system.go`

A shallow embedding of the ledger of `src/payment_system.go` and the properties of its
operations.

Modelling conventions.

* `float64` balances and amounts are values of `Float64`, a model of IEEE 754 binary64: a
  finite value is an integer number of units of `2^-1074` with at most 53 significant bits
  and magnitude below `2^1024`; `+`, `-` round to nearest, ties to even, and overflow to an
  infinity; `Inf - Inf` is NaN; every comparison with NaN is false. The two zeros are one
  value (they compare equal, and no balance can become `-0` by additions and subtractions
  starting from `+0`) and all NaNs are one value.
* `map[string]*Account` is an association list of key/record pairs. Every key owns its own
  record (the program only ever stores freshly allocated records), so a write through the
  pointer found under a key is an in-place update of the first entry with that key
  (`updateAccount`), and `m[k] = v` is `setAccount`. The order of the list has no meaning.
  The maps are the lists with pairwise distinct keys; the statements are proved for every
  list, and every concrete ledger used below has distinct keys.
* A method mutates the service and returns an `error`; here it returns the service after the
  call together with an `Outcome`. A nil-pointer dereference (a lookup of a missing key whose
  result is dereferenced without a check) is the outcome `Outcome.nilDeref`; the state it
  leaves behind is the state reached when the dereference happens.
* The mutex is not modelled: every operation is one atomic step.
* `GenerateIBAN` draws two random numbers; they are parameters. `CreateAccount` takes the
  string that its call of `GenerateIBAN()` returned.
* The order in which `range` yields the entries of the map is a parameter of
  `GetAllAccounts`; `json.MarshalIndent` is not modelled, the snapshot is the slice of records
  handed to it.
* The test writes a `Status` field directly; that write is `setStatus`.
-/

namespace PaymentSystem

/-! ## Go's `float64` -/

/-- The number of binary digits of `n`, computed in at most `fuel` steps: a step strips 64
digits while `n ≥ 2^64` and one digit below (`bitLength_bounds` states the result). -/
def bitLengthAux : Nat → Nat → Nat
  | 0, _ => 0
  | fuel + 1, n =>
    if n = 0 then 0
    else if n < 2 ^ 64 then bitLengthAux fuel (n / 2) + 1
    else bitLengthAux fuel (n / 2 ^ 64) + 64

/-- The number of binary digits of `n` (`0` for `n = 0`). -/
def bitLength (n : Nat) : Nat := bitLengthAux n n

/-- The number 1 in units of `2^-1074`, the smallest positive `float64`. -/
def unitsPerOne : Nat := 2 ^ 1074

/-- The number `2^1024`, the overflow threshold of `float64`, in units of `2^-1074`. -/
def overflowUnits : Nat := 2 ^ 2098

/-- The integer `k`, read as the number `k * 2^-1074`, is a finite value of Go's `float64`
(IEEE 754 binary64): it is below `2^1024` in magnitude and has at most 53 significant bits.
Every finite `float64` is a multiple of `2^-1074`. -/
def Representable (k : Int) : Prop :=
  k.natAbs < overflowUnits ∧ k.natAbs % 2 ^ (bitLength k.natAbs - 53) = 0

instance (k : Int) : Decidable (Representable k) :=
  inferInstanceAs (Decidable (_ ∧ _))

/-- Go's `float64`: the finite values (`finite k h` is the number `k * 2^-1074`), the two
infinities and NaN. The two zeros are one value and all NaNs are one value. -/
inductive Float64 where
  | finite (k : Int) (h : Representable k)
  | posInf
  | negInf
  | nan
deriving DecidableEq

/-- Rounding of the natural number `n` to 53 significant bits, to nearest, ties to even. -/
def roundNat (n : Nat) : Nat :=
  let s := bitLength n - 53
  let q := n / 2 ^ s
  let r := n % 2 ^ s
  if 2 ^ s < 2 * r ∨ (2 * r = 2 ^ s ∧ q % 2 = 1) then (q + 1) * 2 ^ s else q * 2 ^ s

/-- The `float64` with the value `k * 2^-1074`, for a representable `k`. `Float64.round`
calls it on the result of `roundNat` only, which is representable (`roundNat_representable`),
so the other branch is never taken there (`Float64.round_ne_nan`). -/
def Float64.ofUnits (k : Int) : Float64 :=
  if h : Representable k then .finite k h else .nan

/-- IEEE 754 rounding to nearest, ties to even, of the exact number `k * 2^-1074`; a result
of magnitude `2^1024` or more is an infinity. -/
def Float64.round (k : Int) : Float64 :=
  if roundNat k.natAbs < overflowUnits then
    Float64.ofUnits (if 0 ≤ k then (roundNat k.natAbs : Int) else -(roundNat k.natAbs : Int))
  else if 0 ≤ k then .posInf else .negInf

/-- Negation of a `float64`. -/
def Float64.neg : Float64 → Float64
  | .finite k h =>
    .finite (-k) ⟨by rw [Int.natAbs_neg]; exact h.1, by rw [Int.natAbs_neg]; exact h.2⟩
  | .posInf => .negInf
  | .negInf => .posInf
  | .nan => .nan

/-- The operator `+` of `float64`. -/
def Float64.add : Float64 → Float64 → Float64
  | .nan, _ => .nan
  | _, .nan => .nan
  | .posInf, .negInf => .nan
  | .negInf, .posInf => .nan
  | .posInf, _ => .posInf
  | _, .posInf => .posInf
  | .negInf, _ => .negInf
  | _, .negInf => .negInf
  | .finite a _, .finite b _ => Float64.round (a + b)

/-- The operator `-` of `float64`: `x - y` is `x + (-y)`. -/
def Float64.sub (x y : Float64) : Float64 := Float64.add x (Float64.neg y)

/-- The operator `<` of `float64`; every comparison with NaN is false. -/
def Float64.blt : Float64 → Float64 → Bool
  | .finite a _, .finite b _ => decide (a < b)
  | .finite _ _, .posInf => true
  | .negInf, .finite _ _ => true
  | .negInf, .posInf => true
  | _, _ => false

/-- The operator `<=` of `float64`; every comparison with NaN is false. -/
def Float64.ble : Float64 → Float64 → Bool
  | .finite a _, .finite b _ => decide (a ≤ b)
  | .finite _ _, .posInf => true
  | .negInf, .finite _ _ => true
  | .negInf, .posInf => true
  | .posInf, .posInf => true
  | .negInf, .negInf => true
  | _, _ => false

/-- The conversion of an integer constant to `float64`. -/
def Float64.ofInt (z : Int) : Float64 := Float64.round (z * unitsPerOne)

instance (n : Nat) : OfNat Float64 n := ⟨Float64.ofInt n⟩
instance : Neg Float64 := ⟨Float64.neg⟩
instance : Add Float64 := ⟨Float64.add⟩
instance : Sub Float64 := ⟨Float64.sub⟩
instance : LT Float64 := ⟨fun x y => Float64.blt x y = true⟩
instance : LE Float64 := ⟨fun x y => Float64.ble x y = true⟩
instance (x y : Float64) : Decidable (x < y) :=
  inferInstanceAs (Decidable (Float64.blt x y = true))
instance (x y : Float64) : Decidable (x ≤ y) :=
  inferInstanceAs (Decidable (Float64.ble x y = true))

/-- The absolute value of a `float64`. -/
def Float64.abs : Float64 → Float64
  | .finite k h => if k < 0 then Float64.neg (.finite k h) else .finite k h
  | .posInf => .posInf
  | .negInf => .posInf
  | .nan => .nan

/-- The exact sum of two finite `float64` values is itself a `float64` value, so that `x + y`
involves no rounding. -/
def Float64.isExactAdd : Float64 → Float64 → Bool
  | .finite a _, .finite b _ => decide (Representable (a + b))
  | _, _ => false

/-- The exact difference of two finite `float64` values is itself a `float64` value, so that
`x - y` involves no rounding. -/
def Float64.isExactSub : Float64 → Float64 → Bool
  | .finite a _, .finite b _ => decide (Representable (a - b))
  | _, _ => false

/-- The exact number a finite `float64` stands for (`0` for the infinities and NaN, which
stand for no number). -/
def Float64.toRat : Float64 → ℚ
  | .finite k _ => (k : ℚ) / unitsPerOne
  | _ => 0

/-! ## The ledger -/

/-- The Go type `AccountStatus`, a string type. -/
abbrev AccountStatus := String

/-- The constant `StatusActive`. -/
def StatusActive : AccountStatus := "active"

/-- The constant `StatusBlocked`. -/
def StatusBlocked : AccountStatus := "blocked"

/-- The struct `Account`. -/
structure Account where
  IBAN : String
  Balance : Float64
  Status : AccountStatus
deriving DecidableEq

/-- The account map `map[string]*Account`. -/
abbrev Accounts := List (String × Account)

/-- The struct `PaymentService` (without its mutex). -/
structure PaymentService where
  accounts : Accounts
  emissionIBAN : String
  destructionIBAN : String
deriving DecidableEq

/-- The errors the methods return, one constructor per error value built in the source. -/
inductive LedgerError where
  /-- `errors.New("amount must be greater than zero")` (Emission). -/
  | invalidAmount
  /-- `fmt.Errorf("account with IBAN %s not found", fromIBAN)` (DestroyMoney). -/
  | accountNotFound (iban : String)
  /-- `fmt.Errorf("account %s is blocked", fromIBAN)` (DestroyMoney). -/
  | accountBlocked (iban : String)
  /-- `errors.New("one of the accounts does not exist")` (TransferMoney). -/
  | oneAccountMissing
  /-- `errors.New("one of the accounts is blocked")` (TransferMoney). -/
  | oneAccountBlocked
  /-- `errors.New("insufficient funds")` (DestroyMoney and TransferMoney). -/
  | insufficientFunds
deriving DecidableEq

/-- The message carried by each error value. -/
def LedgerError.message : LedgerError → String
  | .invalidAmount => "amount must be greater than zero"
  | .accountNotFound iban => "account with IBAN " ++ iban ++ " not found"
  | .accountBlocked iban => "account " ++ iban ++ " is blocked"
  | .oneAccountMissing => "one of the accounts does not exist"
  | .oneAccountBlocked => "one of the accounts is blocked"
  | .insufficientFunds => "insufficient funds"

/-- How a method call ends: it returns `nil`, it returns an error, or it dereferences the nil
pointer obtained from a lookup of a missing key. -/
inductive Outcome where
  | ok
  | error (e : LedgerError)
  | nilDeref
deriving DecidableEq

/-- The lookup `m[k]`: the record stored under `k`, if any. -/
def getAccount : Accounts → String → Option Account
  | [], _ => none
  | (k', a) :: rest, k => if k' = k then some a else getAccount rest k

/-- A write through the pointer stored under `k`: the record under `k` becomes `f` of it. -/
def updateAccount : Accounts → String → (Account → Account) → Accounts
  | [], _, _ => []
  | (k', a) :: rest, k, f =>
    if k' = k then (k', f a) :: rest else (k', a) :: updateAccount rest k f

/-- The assignment `m[k] = a`: replaces the record under `k`, or adds the key. -/
def setAccount : Accounts → String → Account → Accounts
  | [], k, a => [(k, a)]
  | (k', a') :: rest, k, a =>
    if k' = k then (k', a) :: rest else (k', a') :: setAccount rest k a

/-- The keys of the account map. -/
def keys (m : Accounts) : List String := m.map Prod.fst

/-- The statement `acc.Balance -= amount` on the record under `k`. -/
def debit (m : Accounts) (k : String) (amount : Float64) : Accounts :=
  updateAccount m k (fun a => { a with Balance := a.Balance - amount })

/-- The statement `acc.Balance += amount` on the record under `k`. -/
def credit (m : Accounts) (k : String) (amount : Float64) : Accounts :=
  updateAccount m k (fun a => { a with Balance := a.Balance + amount })

/-- The function `NewPaymentService`. -/
def NewPaymentService : PaymentService :=
  let emissionIBAN := "BY00000000000000000000000000001"
  let destructionIBAN := "BY0000000000000000000000000002"
  { accounts :=
      [ (emissionIBAN, { IBAN := emissionIBAN, Balance := 0, Status := StatusActive }),
        (destructionIBAN, { IBAN := destructionIBAN, Balance := 0, Status := StatusActive }) ]
    emissionIBAN := emissionIBAN
    destructionIBAN := destructionIBAN }

/-- The method `GetEmissionIBAN`. -/
def GetEmissionIBAN (ps : PaymentService) : String := ps.emissionIBAN

/-- The method `GetDestructionIBAN`. -/
def GetDestructionIBAN (ps : PaymentService) : String := ps.destructionIBAN

/-- The verb `%0wd` of `fmt.Sprintf` for a natural number: decimal digits, padded on the left
with zeros up to width `w`. -/
def zeroPad (w n : Nat) : String :=
  let digits := Nat.toDigits 10 n
  String.mk (List.replicate (w - digits.length) '0' ++ digits)

/-- The function `GenerateIBAN`, `fmt.Sprintf("BY%02dCBDC%020d", rng.Intn(100),
rng.Int63n(1e18))`, as a function of the two draws `r₁ < 100` and `r₂ < 10^18`. -/
def GenerateIBAN (r₁ r₂ : Nat) : String :=
  "BY" ++ zeroPad 2 (r₁ % 100) ++ "CBDC" ++ zeroPad 20 (r₂ % 10 ^ 18)

/-- The method `CreateAccount`; `newIBAN` is the value of its call `GenerateIBAN()`.
Returns the service after the call and the returned identifier. -/
def CreateAccount (ps : PaymentService) (newIBAN : String) : PaymentService × String :=
  ({ ps with accounts :=
      setAccount ps.accounts newIBAN { IBAN := newIBAN, Balance := 0, Status := StatusActive } },
   newIBAN)

/-- The method `Emission`. -/
def Emission (ps : PaymentService) (amount : Float64) : PaymentService × Outcome :=
  if amount ≤ 0 then (ps, .error .invalidAmount)
  else
    match getAccount ps.accounts ps.emissionIBAN with
    | none => (ps, .nilDeref)
    | some _ => ({ ps with accounts := credit ps.accounts ps.emissionIBAN amount }, .ok)

/-- The method `DestroyMoney`. -/
def DestroyMoney (ps : PaymentService) (fromIBAN : String) (amount : Float64) :
    PaymentService × Outcome :=
  match getAccount ps.accounts fromIBAN with
  | none => (ps, .error (.accountNotFound fromIBAN))
  | some account =>
    if account.Status = StatusBlocked then (ps, .error (.accountBlocked fromIBAN))
    else if account.Balance < amount then (ps, .error .insufficientFunds)
    else
      let debited := debit ps.accounts fromIBAN amount
      match getAccount debited ps.destructionIBAN with
      | none => ({ ps with accounts := debited }, .nilDeref)
      | some _ => ({ ps with accounts := credit debited ps.destructionIBAN amount }, .ok)

/-- The method `TransferMoney`. -/
def TransferMoney (ps : PaymentService) (fromIBAN toIBAN : String) (amount : Float64) :
    PaymentService × Outcome :=
  match getAccount ps.accounts fromIBAN, getAccount ps.accounts toIBAN with
  | some fromAccount, some toAccount =>
    if fromAccount.Status = StatusBlocked ∨ toAccount.Status = StatusBlocked then
      (ps, .error .oneAccountBlocked)
    else if fromAccount.Balance < amount then (ps, .error .insufficientFunds)
    else
      ({ ps with accounts := credit (debit ps.accounts fromIBAN amount) toIBAN amount }, .ok)
  | _, _ => (ps, .error .oneAccountMissing)

/-- One call of the public interface that changes the ledger. -/
inductive Call where
  | createAccount (newIBAN : String)
  | emission (amount : Float64)
  | destroyMoney (fromIBAN : String) (amount : Float64)
  | transferMoney (fromIBAN toIBAN : String) (amount : Float64)

/-- The service after one call and how the call ended (`CreateAccount` has no error result). -/
def perform (ps : PaymentService) : Call → PaymentService × Outcome
  | .createAccount newIBAN => ((CreateAccount ps newIBAN).1, .ok)
  | .emission amount => Emission ps amount
  | .destroyMoney fromIBAN amount => DestroyMoney ps fromIBAN amount
  | .transferMoney fromIBAN toIBAN amount => TransferMoney ps fromIBAN toIBAN amount

/-- The service after a sequence of calls, first call first. -/
def run (ps : PaymentService) (calls : List Call) : PaymentService :=
  calls.foldl (fun s c => (perform s c).1) ps

/-- The balance of the account under `k`, if the account exists. -/
def balance (ps : PaymentService) (k : String) : Option Float64 :=
  (getAccount ps.accounts k).map Account.Balance

/-- The status of the account under `k`, if the account exists. -/
def status (ps : PaymentService) (k : String) : Option AccountStatus :=
  (getAccount ps.accounts k).map Account.Status

/-- The sum of the balances of all accounts, taken as exact numbers (`Float64.toRat`; a
balance that is an infinity or NaN stands for no number and counts as 0). -/
def totalSupply (ps : PaymentService) : ℚ :=
  (ps.accounts.map (fun e => e.2.Balance.toRat)).sum

/-- Every account of the map has a balance `≥ 0`. -/
def NonNegative (ps : PaymentService) : Prop :=
  ∀ k a, getAccount ps.accounts k = some a → 0 ≤ a.Balance

/-- The account under `k` exists and its status is `StatusBlocked`. -/
def isBlocked (ps : PaymentService) (k : String) : Prop :=
  status ps k = some StatusBlocked

/-- The account under `k` exists and its balance is below `amount`. -/
def lacksFunds (ps : PaymentService) (k : String) (amount : Float64) : Prop :=
  ∃ b, balance ps k = some b ∧ b < amount

/-- The ledger after `CreateAccount` returned `GenerateIBAN 7 42`, an emission of 1000 and a
transfer of 500 from the emission account to the new account. -/
def fundedLedger : PaymentService :=
  run NewPaymentService
    [ .createAccount (GenerateIBAN 7 42),
      .emission 1000,
      .transferMoney (GetEmissionIBAN NewPaymentService) (GenerateIBAN 7 42) 500 ]

/-- The ledger of `NewPaymentService` after the emission account's status was set to
`StatusBlocked` (a write to the `Status` field, as the test does for an account). -/
def blockedSourceLedger : PaymentService :=
  { NewPaymentService with
    accounts :=
      updateAccount NewPaymentService.accounts NewPaymentService.emissionIBAN
        (fun a => { a with Status := StatusBlocked }) }

/-- The assignment `service.accounts[k].Status = st` of the test, for an existing key `k`. -/
def setStatus (ps : PaymentService) (k : String) (st : AccountStatus) : PaymentService :=
  { ps with accounts := updateAccount ps.accounts k (fun a => { a with Status := st }) }

/-- The ledger `fundedLedger` after the destruction account's status was set to
`StatusBlocked`. -/
def blockedSinkLedger : PaymentService :=
  setStatus fundedLedger fundedLedger.destructionIBAN StatusBlocked

/-- The test `TestPaymentService`, step 1: the service after `Emission(1000)`. -/
def testAfterEmission : PaymentService := (Emission NewPaymentService 1000).1

/-- The test, step 2: the service after `CreateAccount()` returned `A`. -/
def testAfterCreate (A : String) : PaymentService := (CreateAccount testAfterEmission A).1

/-- The test, step 3: the service after `TransferMoney(emissionAccount, newAccount, 500)`. -/
def testAfterTransfer (A : String) : PaymentService :=
  (TransferMoney (testAfterCreate A) (GetEmissionIBAN testAfterEmission) A 500).1

/-- The test, step 4: the service after `TransferMoney(newAccount, emissionAccount, 1000)`. -/
def testAfterFailedTransfer (A : String) : PaymentService :=
  (TransferMoney (testAfterTransfer A) A (GetEmissionIBAN testAfterEmission) 1000).1

/-- The test, step 5: the service after `DestroyMoney(newAccount, 200)`. -/
def testAfterDestroy (A : String) : PaymentService :=
  (DestroyMoney (testAfterFailedTransfer A) A 200).1

/-- The test, step 6: the service after `service.accounts[newAccount].Status = StatusBlocked`. -/
def testAfterBlock (A : String) : PaymentService :=
  setStatus (testAfterDestroy A) A StatusBlocked

/-- The loop of `GetAllAccounts`: starting from the empty slice
`make([]*Account, 0, len(ps.accounts))`, every record that `range` yields is appended.
`visited` is the sequence of map entries in the order in which `range` yields them. -/
def collectAccounts (visited : Accounts) : List Account :=
  visited.foldl (fun accounts e => accounts ++ [e.2]) []

/-- The method `GetAllAccounts` up to its call of `json.MarshalIndent`: the service after the
call and the slice handed to the serializer. `visited` is the order in which
`range ps.accounts` yields the entries of the map (every entry once, in no specified
order). -/
def GetAllAccounts (ps : PaymentService) (visited : Accounts) : PaymentService × List Account :=
  (ps, collectAccounts visited)

/-- The states the program can be in: the ledger of `NewPaymentService`, and from a state
the state after any call of `CreateAccount`, `Emission`, `DestroyMoney` or `TransferMoney`
and after any write to a `Status` field. -/
inductive Reachable : PaymentService → Prop where
  | init : Reachable NewPaymentService
  | call (ps : PaymentService) (c : Call) : Reachable ps → Reachable (perform ps c).1
  | statusWrite (ps : PaymentService) (k : String) (st : AccountStatus) :
      Reachable ps → Reachable (setStatus ps k st)

/-- The ledger after `Emission(2^54)` and a transfer of `2^53` from the emission account to the
destruction account: both hold `2^53 = 9007199254740992`. -/
def largeLedger : PaymentService :=
  run NewPaymentService
    [ .emission 18014398509481984,
      .transferMoney (GetEmissionIBAN NewPaymentService) (GetDestructionIBAN NewPaymentService)
        9007199254740992 ]

/-- The ledger after `Emission(2^53 + 2)`: the emission account holds `9007199254740994`. -/
def unevenLedger : PaymentService :=
  run NewPaymentService [ .emission 9007199254740994 ]

/-! ## Binary digits and rounding -/

theorem bitLengthAux_zero (fuel : Nat) : bitLengthAux fuel 0 = 0 := by
  cases fuel <;> simp [bitLengthAux]

theorem bitLengthAux_bounds (fuel n : Nat) (hn : n ≠ 0) (hf : n ≤ fuel) :
    2 ^ (bitLengthAux fuel n - 1) ≤ n ∧ n < 2 ^ bitLengthAux fuel n := by
  induction fuel generalizing n with
  | zero => omega
  | succ fuel ih =>
    have hpos : ∀ m, m ≠ 0 → m ≤ fuel → 1 ≤ bitLengthAux fuel m := by
      intro m hm hle
      by_contra hc
      have h0 : bitLengthAux fuel m = 0 := by omega
      have := (ih m hm hle).2
      rw [h0] at this
      omega
    simp only [bitLengthAux, hn, if_false]
    by_cases hsmall : n < 2 ^ 64
    · rw [if_pos hsmall]
      by_cases h2 : n / 2 = 0
      · have h1 : n = 1 := by omega
        subst h1
        simp [bitLengthAux_zero]
      · have hle : n / 2 ≤ fuel := by omega
        obtain ⟨hlo, hhi⟩ := ih (n / 2) h2 hle
        have h1 := hpos (n / 2) h2 hle
        constructor
        · have hp : 2 ^ (bitLengthAux fuel (n / 2) + 1 - 1)
              = 2 ^ (bitLengthAux fuel (n / 2) - 1) * 2 := by
            rw [← pow_succ]
            congr 1
            omega
          rw [hp]
          omega
        · rw [pow_succ]
          omega
    · rw [if_neg hsmall]
      have hc : 0 < 2 ^ 64 := Nat.two_pow_pos 64
      have hge : 2 ^ 64 ≤ n := Nat.le_of_not_lt hsmall
      have h2 : n / 2 ^ 64 ≠ 0 := by
        have : 1 ≤ n / 2 ^ 64 := (Nat.le_div_iff_mul_le hc).mpr (by omega)
        omega
      have hle : n / 2 ^ 64 ≤ fuel := by
        have : n / 2 ^ 64 < n := Nat.div_lt_self (by omega) (by norm_num)
        omega
      obtain ⟨hlo, hhi⟩ := ih (n / 2 ^ 64) h2 hle
      have h1 := hpos (n / 2 ^ 64) h2 hle
      constructor
      · have hp : 2 ^ (bitLengthAux fuel (n / 2 ^ 64) + 64 - 1)
            = 2 ^ (bitLengthAux fuel (n / 2 ^ 64) - 1) * 2 ^ 64 := by
          rw [← pow_add]
          congr 1
          omega
        rw [hp]
        calc 2 ^ (bitLengthAux fuel (n / 2 ^ 64) - 1) * 2 ^ 64
            ≤ n / 2 ^ 64 * 2 ^ 64 := Nat.mul_le_mul_right _ hlo
          _ ≤ n := Nat.div_mul_le_self n (2 ^ 64)
      · rw [pow_add]
        exact (Nat.div_lt_iff_lt_mul hc).mp hhi

theorem bitLength_zero : bitLength 0 = 0 := bitLengthAux_zero 0

theorem bitLength_bounds (n : Nat) (hn : n ≠ 0) :
    2 ^ (bitLength n - 1) ≤ n ∧ n < 2 ^ bitLength n :=
  bitLengthAux_bounds n n hn (le_refl n)

theorem bitLength_eq (n L : Nat) (hlo : 2 ^ L ≤ n) (hhi : n < 2 ^ (L + 1)) :
    bitLength n = L + 1 := by
  have hn : n ≠ 0 := by
    have : 0 < 2 ^ L := Nat.two_pow_pos _
    omega
  obtain ⟨h₁, h₂⟩ := bitLength_bounds n hn
  have hA : L < bitLength n := by
    by_contra hc
    have : 2 ^ bitLength n ≤ 2 ^ L := Nat.pow_le_pow_right (by norm_num) (by omega)
    omega
  have hB : bitLength n - 1 < L + 1 := by
    by_contra hc
    have : 2 ^ (L + 1) ≤ 2 ^ (bitLength n - 1) := Nat.pow_le_pow_right (by norm_num) (by omega)
    omega
  omega

/-- A number whose low bits below the 53 leading ones are zero is its own rounding. -/
theorem roundNat_eq_self (n : Nat) (h : n % 2 ^ (bitLength n - 53) = 0) : roundNat n = n := by
  have hpos : 0 < 2 ^ (bitLength n - 53) := Nat.two_pow_pos _
  simp only [roundNat, h, Nat.mul_zero]
  rw [if_neg]
  · exact Nat.div_mul_cancel (Nat.dvd_of_mod_eq_zero h)
  · rintro (h' | ⟨h', -⟩) <;> omega

/-- The rounding has at most 53 significant bits. -/
theorem roundNat_mod (n : Nat) :
    roundNat n % 2 ^ (bitLength (roundNat n) - 53) = 0 := by
  by_cases hL : bitLength n ≤ 53
  · have hs : bitLength n - 53 = 0 := by omega
    have hself : roundNat n = n := roundNat_eq_self n (by rw [hs]; simp [Nat.mod_one])
    rw [hself, hs]
    simp [Nat.mod_one]
  · have hn : n ≠ 0 := by
      rintro rfl
      rw [bitLength_zero] at hL
      omega
    obtain ⟨hlo, hhi⟩ := bitLength_bounds n hn
    obtain ⟨s, hs⟩ : ∃ s, bitLength n = s + 54 := ⟨bitLength n - 54, by omega⟩
    have hs53 : bitLength n - 53 = s + 1 := by omega
    have hs1 : bitLength n - 1 = 52 + (s + 1) := by omega
    have hsL : bitLength n = 53 + (s + 1) := by omega
    rw [hs1, pow_add] at hlo
    rw [hsL, pow_add] at hhi
    have hpos : 0 < 2 ^ (s + 1) := Nat.two_pow_pos _
    have hq₁ : 2 ^ 52 ≤ n / 2 ^ (s + 1) := (Nat.le_div_iff_mul_le hpos).mpr hlo
    have hq₂ : n / 2 ^ (s + 1) < 2 ^ 53 := (Nat.div_lt_iff_lt_mul hpos).mpr hhi
    -- the rounded significand `q'` lies in `[2^52, 2^53]`
    have key : ∀ q', 2 ^ 52 ≤ q' → q' ≤ 2 ^ 53 →
        (q' * 2 ^ (s + 1)) % 2 ^ (bitLength (q' * 2 ^ (s + 1)) - 53) = 0 := by
      intro q' h₁ h₂
      by_cases htop : q' = 2 ^ 53
      · subst htop
        have hb : bitLength (2 ^ 53 * 2 ^ (s + 1)) = (53 + (s + 1)) + 1 :=
          bitLength_eq _ _ (by rw [pow_add]) (by
            rw [← pow_add]
            exact Nat.pow_lt_pow_right (by norm_num) (by omega))
        rw [hb]
        have he : 53 + (s + 1) + 1 - 53 = (s + 1) + 1 := by omega
        rw [he, pow_succ (2) (s + 1)]
        have : (2 ^ 53 * 2 ^ (s + 1)) = 2 ^ 52 * (2 ^ (s + 1) * 2) := by
          rw [show (2 : Nat) ^ 53 = 2 ^ 52 * 2 by norm_num]
          ring
        rw [this]
        exact Nat.mul_mod_left _ _
      · have hlt : q' < 2 ^ 53 := lt_of_le_of_ne h₂ htop
        have hb : bitLength (q' * 2 ^ (s + 1)) = (52 + (s + 1)) + 1 :=
          bitLength_eq _ _ (by rw [pow_add]; exact Nat.mul_le_mul_right _ h₁) (by
            have : (2 : Nat) ^ (52 + (s + 1) + 1) = 2 ^ 53 * 2 ^ (s + 1) := by
              rw [show 52 + (s + 1) + 1 = 53 + (s + 1) by omega, pow_add]
            rw [this]
            exact Nat.mul_lt_mul_of_pos_right hlt hpos)
        rw [hb]
        have he : 52 + (s + 1) + 1 - 53 = s + 1 := by omega
        rw [he]
        exact Nat.mul_mod_left _ _
    simp only [roundNat, hs53]
    split
    · exact key _ (by omega) (by omega)
    · exact key _ hq₁ (by omega)

theorem roundNat_representable (n : Nat) (h : roundNat n < overflowUnits) :
    Representable (roundNat n : Int) := by
  refine ⟨?_, ?_⟩
  · rw [Int.natAbs_ofNat]; exact h
  · rw [Int.natAbs_ofNat]; exact roundNat_mod n

theorem roundNat_representable_neg (n : Nat) (h : roundNat n < overflowUnits) :
    Representable (-(roundNat n : Int)) := by
  refine ⟨?_, ?_⟩
  · rw [Int.natAbs_neg, Int.natAbs_ofNat]; exact h
  · rw [Int.natAbs_neg, Int.natAbs_ofNat]; exact roundNat_mod n

/-! ## The arithmetic of `float64` -/

theorem Float64.add_def (x y : Float64) : x + y = Float64.add x y := rfl

theorem Float64.sub_def (x y : Float64) : x - y = Float64.add x (Float64.neg y) := rfl

theorem Float64.neg_def (x : Float64) : -x = Float64.neg x := rfl

theorem Float64.lt_def (x y : Float64) : x < y ↔ Float64.blt x y = true := Iff.rfl

theorem Float64.le_def (x y : Float64) : x ≤ y ↔ Float64.ble x y = true := Iff.rfl

theorem Float64.finite_congr (a b : Int) (ha : Representable a) (hb : Representable b)
    (h : a = b) : Float64.finite a ha = Float64.finite b hb := by
  subst h
  rfl

theorem Float64.ofUnits_eq (k : Int) (h : Representable k) :
    Float64.ofUnits k = Float64.finite k h := dif_pos h

/-- The rounding of a `float64` value is that value. -/
theorem Float64.round_eq_self (k : Int) (h : Representable k) :
    Float64.round k = Float64.finite k h := by
  have hr : roundNat k.natAbs = k.natAbs := roundNat_eq_self _ h.2
  have hk : (if 0 ≤ k then (k.natAbs : Int) else -(k.natAbs : Int)) = k := by
    split <;> omega
  rw [Float64.round, hr, if_pos h.1, hk, Float64.ofUnits_eq k h]

/-- The rounding is a finite value or an infinity, never NaN. -/
theorem Float64.round_ne_nan (k : Int) : Float64.round k ≠ Float64.nan := by
  by_cases hb : roundNat k.natAbs < overflowUnits
  · by_cases hk : 0 ≤ k
    · rw [Float64.round, if_pos hb, if_pos hk,
        Float64.ofUnits_eq _ (roundNat_representable _ hb)]
      simp
    · rw [Float64.round, if_pos hb, if_neg hk,
        Float64.ofUnits_eq _ (roundNat_representable_neg _ hb)]
      simp
  · rw [Float64.round, if_neg hb]
    split <;> simp

theorem representable_zero : Representable 0 := by decide!

theorem representable_neg (k : Int) (h : Representable k) : Representable (-k) :=
  ⟨by rw [Int.natAbs_neg]; exact h.1, by rw [Int.natAbs_neg]; exact h.2⟩

theorem Float64.zero_eq : (0 : Float64) = Float64.finite 0 representable_zero := by decide!

theorem Float64.neg_finite (k : Int) (h : Representable k) :
    Float64.neg (Float64.finite k h) = Float64.finite (-k) (representable_neg k h) := rfl

theorem Float64.neg_neg (x : Float64) : Float64.neg (Float64.neg x) = x := by
  cases x with
  | finite k h =>
    rw [Float64.neg_finite, Float64.neg_finite]
    exact Float64.finite_congr _ _ _ _ (by omega)
  | posInf => rfl
  | negInf => rfl
  | nan => rfl

theorem Float64.add_finite (a b : Int) (ha : Representable a) (hb : Representable b) :
    Float64.add (Float64.finite a ha) (Float64.finite b hb) = Float64.round (a + b) := rfl

theorem Float64.add_zero (x : Float64) : x + 0 = x := by
  rw [Float64.add_def, Float64.zero_eq]
  cases x with
  | finite k h =>
    rw [Float64.add_finite, show k + 0 = k by omega]
    exact Float64.round_eq_self k h
  | posInf => rfl
  | negInf => rfl
  | nan => rfl

theorem Float64.sub_zero (x : Float64) : x - 0 = x := by
  have h0 : Float64.neg 0 = 0 := by
    rw [Float64.zero_eq, Float64.neg_finite]
    exact Float64.finite_congr _ _ _ _ (by omega)
  rw [Float64.sub_def, h0]
  exact Float64.add_zero x

/-! ## The order of `float64` -/

theorem Float64.not_lt_of_le (x y : Float64) (h : x ≤ y) : ¬ y < x := by
  rw [Float64.le_def] at h
  rw [Float64.lt_def]
  cases x <;> cases y <;> simp [Float64.blt, Float64.ble] at h ⊢
  omega

theorem Float64.not_le_of_lt (x y : Float64) (h : x < y) : ¬ y ≤ x := by
  rw [Float64.lt_def] at h
  rw [Float64.le_def]
  cases x <;> cases y <;> simp [Float64.blt, Float64.ble] at h ⊢
  omega

theorem Float64.not_lt_of_nonneg_of_nonpos (b x : Float64) (hb : 0 ≤ b) (hx : x ≤ 0) :
    ¬ b < x := by
  rw [Float64.zero_eq, Float64.le_def] at hb hx
  rw [Float64.lt_def]
  cases b <;> cases x <;> simp [Float64.blt, Float64.ble] at hb hx ⊢
  omega

theorem Float64.toRat_add_of_exact (x y : Float64) (h : Float64.isExactAdd x y = true) :
    Float64.toRat (x + y) = Float64.toRat x + Float64.toRat y := by
  cases x with
  | finite a ha =>
    cases y with
    | finite b hb =>
      simp only [Float64.isExactAdd, decide_eq_true_eq] at h
      rw [Float64.add_def, Float64.add_finite, Float64.round_eq_self _ h]
      simp only [Float64.toRat]
      push_cast
      ring
    | posInf => simp [Float64.isExactAdd] at h
    | negInf => simp [Float64.isExactAdd] at h
    | nan => simp [Float64.isExactAdd] at h
  | posInf => simp [Float64.isExactAdd] at h
  | negInf => simp [Float64.isExactAdd] at h
  | nan => simp [Float64.isExactAdd] at h

theorem Float64.toRat_sub_of_exact (x y : Float64) (h : Float64.isExactSub x y = true) :
    Float64.toRat (x - y) = Float64.toRat x - Float64.toRat y := by
  cases x with
  | finite a ha =>
    cases y with
    | finite b hb =>
      simp only [Float64.isExactSub, decide_eq_true_eq] at h
      have h' : Representable (a + -b) := by rw [← sub_eq_add_neg]; exact h
      rw [Float64.sub_def, Float64.neg_finite, Float64.add_finite, Float64.round_eq_self _ h']
      simp only [Float64.toRat]
      push_cast
      ring
    | posInf => simp [Float64.isExactSub] at h
    | negInf => simp [Float64.isExactSub] at h
    | nan => simp [Float64.isExactSub] at h
  | posInf => simp [Float64.isExactSub] at h
  | negInf => simp [Float64.isExactSub] at h
  | nan => simp [Float64.isExactSub] at h

/-- Adding back what was subtracted without rounding gives the original value. -/
theorem Float64.sub_add_cancel_of_exact (x y : Float64) (h : Float64.isExactSub x y = true) :
    x - y + y = x := by
  cases x with
  | finite a ha =>
    cases y with
    | finite b hb =>
      simp only [Float64.isExactSub, decide_eq_true_eq] at h
      have h' : Representable (a + -b) := by rw [← sub_eq_add_neg]; exact h
      rw [Float64.sub_def, Float64.neg_finite, Float64.add_finite, Float64.round_eq_self _ h',
        Float64.add_def, Float64.add_finite, show a + -b + b = a by omega]
      exact Float64.round_eq_self a ha
    | posInf => simp [Float64.isExactSub] at h
    | negInf => simp [Float64.isExactSub] at h
    | nan => simp [Float64.isExactSub] at h
  | posInf => simp [Float64.isExactSub] at h
  | negInf => simp [Float64.isExactSub] at h
  | nan => simp [Float64.isExactSub] at h

theorem Float64.abs_eq_neg (x : Float64) (h : x < 0) : Float64.abs x = Float64.neg x := by
  rw [Float64.zero_eq, Float64.lt_def] at h
  cases x with
  | finite k hk =>
    simp only [Float64.blt, decide_eq_true_eq] at h
    simp only [Float64.abs, h, if_true]
  | posInf => simp [Float64.blt] at h
  | negInf => rfl
  | nan => simp [Float64.blt] at h

/-! ## The account map -/

theorem getAccount_eq_none_iff (m : Accounts) (k : String) :
    getAccount m k = none ↔ k ∉ keys m := by
  induction m with
  | nil => simp [getAccount, keys]
  | cons e rest ih =>
    obtain ⟨k', a⟩ := e
    by_cases h : k' = k
    · simp [getAccount, keys, h]
    · have hk : ¬ k = k' := fun h' => h h'.symm
      simpa [getAccount, keys, h, hk] using ih

theorem mem_keys_iff (m : Accounts) (k : String) :
    k ∈ keys m ↔ ∃ a, getAccount m k = some a := by
  rw [← not_iff_not, ← getAccount_eq_none_iff]
  cases getAccount m k <;> simp

theorem getAccount_updateAccount_self (m : Accounts) (k : String) (f : Account → Account) :
    getAccount (updateAccount m k f) k = (getAccount m k).map f := by
  induction m with
  | nil => simp [getAccount, updateAccount]
  | cons e rest ih =>
    obtain ⟨k', a⟩ := e
    by_cases h : k' = k
    · simp [getAccount, updateAccount, h]
    · simp [getAccount, updateAccount, h, ih]

theorem getAccount_updateAccount_ne (m : Accounts) (k k₀ : String) (f : Account → Account)
    (h₀ : k₀ ≠ k) : getAccount (updateAccount m k f) k₀ = getAccount m k₀ := by
  have h₁ : ¬ k = k₀ := fun h' => h₀ h'.symm
  induction m with
  | nil => simp [getAccount, updateAccount]
  | cons e rest ih =>
    obtain ⟨k', a⟩ := e
    by_cases h : k' = k
    · subst h
      simp [getAccount, updateAccount, h₁]
    · by_cases h' : k' = k₀
      · subst h'
        simp [getAccount, updateAccount, h]
      · simp [getAccount, updateAccount, h, h', ih]

theorem keys_updateAccount (m : Accounts) (k : String) (f : Account → Account) :
    keys (updateAccount m k f) = keys m := by
  induction m with
  | nil => simp [updateAccount]
  | cons e rest ih =>
    obtain ⟨k', a⟩ := e
    by_cases h : k' = k
    · simp [updateAccount, keys, h]
    · simpa [updateAccount, keys, h] using ih

theorem getAccount_setAccount_self (m : Accounts) (k : String) (a : Account) :
    getAccount (setAccount m k a) k = some a := by
  induction m with
  | nil => simp [getAccount, setAccount]
  | cons e rest ih =>
    obtain ⟨k', a'⟩ := e
    by_cases h : k' = k
    · simp [getAccount, setAccount, h]
    · simp [getAccount, setAccount, h, ih]

theorem getAccount_setAccount_ne (m : Accounts) (k k₀ : String) (a : Account)
    (h₀ : k₀ ≠ k) : getAccount (setAccount m k a) k₀ = getAccount m k₀ := by
  have h₁ : ¬ k = k₀ := fun h' => h₀ h'.symm
  induction m with
  | nil => simp [getAccount, setAccount, h₁]
  | cons e rest ih =>
    obtain ⟨k', a'⟩ := e
    by_cases h : k' = k
    · subst h
      simp [getAccount, setAccount, h₁]
    · by_cases h' : k' = k₀
      · subst h'
        simp [getAccount, setAccount, h]
      · simp [getAccount, setAccount, h, h', ih]

theorem setAccount_of_not_mem (m : Accounts) (k : String) (a : Account) (h : k ∉ keys m) :
    setAccount m k a = m ++ [(k, a)] := by
  induction m with
  | nil => simp [setAccount]
  | cons e rest ih =>
    obtain ⟨k', a'⟩ := e
    have hk : ¬ k' = k := fun h' => h (by simp [keys, h'])
    have hr : k ∉ keys rest := fun h' => h (by simp [keys] at h' ⊢; exact Or.inr h')
    simp [setAccount, hk, ih hr]

theorem keys_setAccount_of_mem (m : Accounts) (k : String) (a : Account) (h : k ∈ keys m) :
    keys (setAccount m k a) = keys m := by
  induction m with
  | nil => simp [keys] at h
  | cons e rest ih =>
    obtain ⟨k', a'⟩ := e
    by_cases hk : k' = k
    · simp [setAccount, keys, hk]
    · have hr : k ∈ keys rest := by
        simp only [keys, List.map_cons, List.mem_cons] at h ⊢
        rcases h with h | h
        · exact absurd h.symm hk
        · exact h
      simpa [setAccount, keys, hk] using ih hr

/-- The sum of the balances after a write through the pointer under `k`. -/
theorem sum_updateAccount (m : Accounts) (k : String) (f : Account → Account) (a : Account)
    (h : getAccount m k = some a) :
    ((updateAccount m k f).map (fun e => e.2.Balance.toRat)).sum
      = (m.map (fun e => e.2.Balance.toRat)).sum - a.Balance.toRat + (f a).Balance.toRat := by
  induction m with
  | nil => simp [getAccount] at h
  | cons e rest ih =>
    obtain ⟨k', a'⟩ := e
    by_cases hk : k' = k
    · simp [getAccount, hk] at h
      subst h
      simp [updateAccount, hk]
      ring
    · simp [getAccount, hk] at h
      simp [updateAccount, hk, ih h]
      ring

/-! ## The operations, case by case -/

theorem TransferMoney_missing (ps : PaymentService) (fromIBAN toIBAN : String) (amount : Float64)
    (h : getAccount ps.accounts fromIBAN = none ∨ getAccount ps.accounts toIBAN = none) :
    TransferMoney ps fromIBAN toIBAN amount = (ps, .error .oneAccountMissing) := by
  unfold TransferMoney
  rcases h with h | h
  · simp [h]
  · cases hf : getAccount ps.accounts fromIBAN <;> simp [h]

theorem TransferMoney_blocked (ps : PaymentService) (fromIBAN toIBAN : String) (amount : Float64)
    (fromAccount toAccount : Account)
    (hfrom : getAccount ps.accounts fromIBAN = some fromAccount)
    (hto : getAccount ps.accounts toIBAN = some toAccount)
    (h : fromAccount.Status = StatusBlocked ∨ toAccount.Status = StatusBlocked) :
    TransferMoney ps fromIBAN toIBAN amount = (ps, .error .oneAccountBlocked) := by
  simp [TransferMoney, hfrom, hto, h]

theorem TransferMoney_insufficient (ps : PaymentService) (fromIBAN toIBAN : String) (amount : Float64)
    (fromAccount toAccount : Account)
    (hfrom : getAccount ps.accounts fromIBAN = some fromAccount)
    (hto : getAccount ps.accounts toIBAN = some toAccount)
    (hfs : fromAccount.Status ≠ StatusBlocked) (hts : toAccount.Status ≠ StatusBlocked)
    (h : fromAccount.Balance < amount) :
    TransferMoney ps fromIBAN toIBAN amount = (ps, .error .insufficientFunds) := by
  simp [TransferMoney, hfrom, hto, hfs, hts, h]

theorem TransferMoney_ok (ps : PaymentService) (fromIBAN toIBAN : String) (amount : Float64)
    (fromAccount toAccount : Account)
    (hfrom : getAccount ps.accounts fromIBAN = some fromAccount)
    (hto : getAccount ps.accounts toIBAN = some toAccount)
    (hfs : fromAccount.Status ≠ StatusBlocked) (hts : toAccount.Status ≠ StatusBlocked)
    (h : ¬ fromAccount.Balance < amount) :
    TransferMoney ps fromIBAN toIBAN amount
      = ({ ps with accounts := credit (debit ps.accounts fromIBAN amount) toIBAN amount },
         .ok) := by
  simp [TransferMoney, hfrom, hto, hfs, hts, h]

theorem DestroyMoney_missing (ps : PaymentService) (fromIBAN : String) (amount : Float64)
    (h : getAccount ps.accounts fromIBAN = none) :
    DestroyMoney ps fromIBAN amount = (ps, .error (.accountNotFound fromIBAN)) := by
  simp [DestroyMoney, h]

theorem DestroyMoney_blocked (ps : PaymentService) (fromIBAN : String) (amount : Float64)
    (account : Account) (hfrom : getAccount ps.accounts fromIBAN = some account)
    (h : account.Status = StatusBlocked) :
    DestroyMoney ps fromIBAN amount = (ps, .error (.accountBlocked fromIBAN)) := by
  simp [DestroyMoney, hfrom, h]

theorem DestroyMoney_insufficient (ps : PaymentService) (fromIBAN : String) (amount : Float64)
    (account : Account) (hfrom : getAccount ps.accounts fromIBAN = some account)
    (hs : account.Status ≠ StatusBlocked) (h : account.Balance < amount) :
    DestroyMoney ps fromIBAN amount = (ps, .error .insufficientFunds) := by
  simp [DestroyMoney, hfrom, hs, h]

theorem DestroyMoney_ok (ps : PaymentService) (fromIBAN : String) (amount : Float64)
    (account : Account) (hfrom : getAccount ps.accounts fromIBAN = some account)
    (hs : account.Status ≠ StatusBlocked) (h : ¬ account.Balance < amount)
    (hsink : ps.destructionIBAN ∈ keys ps.accounts) :
    DestroyMoney ps fromIBAN amount
      = ({ ps with
            accounts := credit (debit ps.accounts fromIBAN amount) ps.destructionIBAN amount },
         .ok) := by
  have hk : ps.destructionIBAN ∈ keys (debit ps.accounts fromIBAN amount) := by
    rw [debit, keys_updateAccount]; exact hsink
  obtain ⟨d, hd⟩ := (mem_keys_iff _ _).mp hk
  simp [DestroyMoney, hfrom, hs, h, hd]

theorem DestroyMoney_nilDeref (ps : PaymentService) (fromIBAN : String) (amount : Float64)
    (account : Account) (hfrom : getAccount ps.accounts fromIBAN = some account)
    (hs : account.Status ≠ StatusBlocked) (h : ¬ account.Balance < amount)
    (hsink : ps.destructionIBAN ∉ keys ps.accounts) :
    DestroyMoney ps fromIBAN amount
      = ({ ps with accounts := debit ps.accounts fromIBAN amount }, .nilDeref) := by
  have hk : ps.destructionIBAN ∉ keys (debit ps.accounts fromIBAN amount) := by
    rw [debit, keys_updateAccount]; exact hsink
  have hd := (getAccount_eq_none_iff _ _).mpr hk
  simp [DestroyMoney, hfrom, hs, h, hd]

theorem Emission_invalid (ps : PaymentService) (amount : Float64) (h : amount ≤ 0) :
    Emission ps amount = (ps, .error .invalidAmount) := by
  simp [Emission, h]

theorem Emission_ok (ps : PaymentService) (amount : Float64) (h : ¬ amount ≤ 0)
    (hsrc : ps.emissionIBAN ∈ keys ps.accounts) :
    Emission ps amount
      = ({ ps with accounts := credit ps.accounts ps.emissionIBAN amount }, .ok) := by
  obtain ⟨e, he⟩ := (mem_keys_iff _ _).mp hsrc
  simp [Emission, h, he]

theorem Emission_nilDeref (ps : PaymentService) (amount : Float64) (h : ¬ amount ≤ 0)
    (hsrc : ps.emissionIBAN ∉ keys ps.accounts) :
    Emission ps amount = (ps, .nilDeref) := by
  have he := (getAccount_eq_none_iff _ _).mpr hsrc
  simp [Emission, h, he]

/-! ## The shape of every call -/

/-- `TransferMoney` either returns an error and leaves the service as it was, or it passed
all checks and applied the debit and the credit. -/
theorem TransferMoney_cases (ps : PaymentService) (fromIBAN toIBAN : String) (amount : Float64) :
    ((TransferMoney ps fromIBAN toIBAN amount).1 = ps ∧
      ∃ e, (TransferMoney ps fromIBAN toIBAN amount).2 = Outcome.error e) ∨
    ∃ fromAccount toAccount,
      getAccount ps.accounts fromIBAN = some fromAccount ∧
      getAccount ps.accounts toIBAN = some toAccount ∧
      fromAccount.Status ≠ StatusBlocked ∧ toAccount.Status ≠ StatusBlocked ∧
      ¬ fromAccount.Balance < amount ∧
      TransferMoney ps fromIBAN toIBAN amount
        = ({ ps with accounts := credit (debit ps.accounts fromIBAN amount) toIBAN amount },
           Outcome.ok) := by
  cases hf : getAccount ps.accounts fromIBAN with
  | none =>
    left; rw [TransferMoney_missing ps fromIBAN toIBAN amount (Or.inl hf)]
    exact ⟨rfl, _, rfl⟩
  | some fromAccount =>
    cases ht : getAccount ps.accounts toIBAN with
    | none =>
      left; rw [TransferMoney_missing ps fromIBAN toIBAN amount (Or.inr ht)]
      exact ⟨rfl, _, rfl⟩
    | some toAccount =>
      by_cases hb : fromAccount.Status = StatusBlocked ∨ toAccount.Status = StatusBlocked
      · left; rw [TransferMoney_blocked ps fromIBAN toIBAN amount _ _ hf ht hb]
        exact ⟨rfl, _, rfl⟩
      · have hfs : fromAccount.Status ≠ StatusBlocked := fun h => hb (Or.inl h)
        have hts : toAccount.Status ≠ StatusBlocked := fun h => hb (Or.inr h)
        by_cases hlt : fromAccount.Balance < amount
        · left; rw [TransferMoney_insufficient ps fromIBAN toIBAN amount _ _ hf ht hfs hts hlt]
          exact ⟨rfl, _, rfl⟩
        · right
          exact ⟨fromAccount, toAccount, rfl, rfl, hfs, hts, hlt,
            TransferMoney_ok ps fromIBAN toIBAN amount _ _ hf ht hfs hts hlt⟩

/-- `DestroyMoney` either returns an error and leaves the service as it was, or it passed all
checks and debited the source; it then credits the destruction account, or dereferences nil
when that account is missing. -/
theorem DestroyMoney_cases (ps : PaymentService) (fromIBAN : String) (amount : Float64) :
    ((DestroyMoney ps fromIBAN amount).1 = ps ∧
      ∃ e, (DestroyMoney ps fromIBAN amount).2 = Outcome.error e) ∨
    ∃ account,
      getAccount ps.accounts fromIBAN = some account ∧
      account.Status ≠ StatusBlocked ∧ ¬ account.Balance < amount ∧
      ((ps.destructionIBAN ∈ keys ps.accounts ∧
        DestroyMoney ps fromIBAN amount
          = ({ ps with
                accounts :=
                  credit (debit ps.accounts fromIBAN amount) ps.destructionIBAN amount },
             Outcome.ok)) ∨
       (ps.destructionIBAN ∉ keys ps.accounts ∧
        DestroyMoney ps fromIBAN amount
          = ({ ps with accounts := debit ps.accounts fromIBAN amount }, Outcome.nilDeref))) := by
  cases hf : getAccount ps.accounts fromIBAN with
  | none =>
    left; rw [DestroyMoney_missing ps fromIBAN amount hf]
    exact ⟨rfl, _, rfl⟩
  | some account =>
    by_cases hs : account.Status = StatusBlocked
    · left; rw [DestroyMoney_blocked ps fromIBAN amount _ hf hs]
      exact ⟨rfl, _, rfl⟩
    · by_cases hlt : account.Balance < amount
      · left; rw [DestroyMoney_insufficient ps fromIBAN amount _ hf hs hlt]
        exact ⟨rfl, _, rfl⟩
      · right
        refine ⟨account, rfl, hs, hlt, ?_⟩
        by_cases hsink : ps.destructionIBAN ∈ keys ps.accounts
        · exact Or.inl ⟨hsink, DestroyMoney_ok ps fromIBAN amount _ hf hs hlt hsink⟩
        · exact Or.inr
            ⟨hsink, DestroyMoney_nilDeref ps fromIBAN amount _ hf hs hlt hsink⟩

/-- `Emission` either leaves the service as it was (error, or missing emission account), or
credits the emission account. -/
theorem Emission_cases (ps : PaymentService) (amount : Float64) :
    ((Emission ps amount).1 = ps ∧ (Emission ps amount).2 ≠ Outcome.ok) ∨
    (¬ amount ≤ 0 ∧ ps.emissionIBAN ∈ keys ps.accounts ∧
      Emission ps amount
        = ({ ps with accounts := credit ps.accounts ps.emissionIBAN amount }, Outcome.ok)) := by
  by_cases ha : amount ≤ 0
  · left; rw [Emission_invalid ps amount ha]; simp
  · by_cases hsrc : ps.emissionIBAN ∈ keys ps.accounts
    · exact Or.inr ⟨ha, hsrc, Emission_ok ps amount ha hsrc⟩
    · left; rw [Emission_nilDeref ps amount ha hsrc]; simp

/-! ## Concrete ledgers -/

theorem GenerateIBAN_7_42 : GenerateIBAN 7 42 = "BY07CBDC00000000000000000042" := by decide

theorem fundedLedger_eq :
    fundedLedger =
      { accounts :=
          [ ("BY00000000000000000000000000001",
              { IBAN := "BY00000000000000000000000000001", Balance := 500,
                Status := StatusActive }),
            ("BY0000000000000000000000000002",
              { IBAN := "BY0000000000000000000000000002", Balance := 0,
                Status := StatusActive }),
            ("BY07CBDC00000000000000000042",
              { IBAN := "BY07CBDC00000000000000000042", Balance := 500,
                Status := StatusActive }) ]
        emissionIBAN := "BY00000000000000000000000000001"
        destructionIBAN := "BY0000000000000000000000000002" } := by
  decide!

theorem blockedSinkLedger_eq :
    blockedSinkLedger =
      { accounts :=
          [ ("BY00000000000000000000000000001",
              { IBAN := "BY00000000000000000000000000001", Balance := 500,
                Status := StatusActive }),
            ("BY0000000000000000000000000002",
              { IBAN := "BY0000000000000000000000000002", Balance := 0,
                Status := StatusBlocked }),
            ("BY07CBDC00000000000000000042",
              { IBAN := "BY07CBDC00000000000000000042", Balance := 500,
                Status := StatusActive }) ]
        emissionIBAN := "BY00000000000000000000000000001"
        destructionIBAN := "BY0000000000000000000000000002" } := by
  decide!

theorem largeLedger_eq :
    largeLedger =
      { accounts :=
          [ ("BY00000000000000000000000000001",
              { IBAN := "BY00000000000000000000000000001", Balance := 9007199254740992,
                Status := StatusActive }),
            ("BY0000000000000000000000000002",
              { IBAN := "BY0000000000000000000000000002", Balance := 9007199254740992,
                Status := StatusActive }) ]
        emissionIBAN := "BY00000000000000000000000000001"
        destructionIBAN := "BY0000000000000000000000000002" } := by
  decide!

theorem unevenLedger_eq :
    unevenLedger =
      { accounts :=
          [ ("BY00000000000000000000000000001",
              { IBAN := "BY00000000000000000000000000001", Balance := 9007199254740994,
                Status := StatusActive }),
            ("BY0000000000000000000000000002",
              { IBAN := "BY0000000000000000000000000002", Balance := 0,
                Status := StatusActive }) ]
        emissionIBAN := "BY00000000000000000000000000001"
        destructionIBAN := "BY0000000000000000000000000002" } := by
  decide!

theorem unitsPerOne_pos : 0 < unitsPerOne := by decide!

/-- The exact number of a `float64` integer constant that needs no rounding. -/
theorem Float64.toRat_ofNat (n : Nat) (h : Representable ((n : Int) * unitsPerOne)) :
    Float64.toRat (OfNat.ofNat n) = (n : ℚ) := by
  show Float64.toRat (Float64.ofInt (n : Int)) = (n : ℚ)
  rw [Float64.ofInt, Float64.round_eq_self _ h, Float64.toRat]
  have hu : (unitsPerOne : ℚ) ≠ 0 := by
    have := unitsPerOne_pos
    exact_mod_cast (ne_of_gt this)
  push_cast
  rw [mul_div_assoc, div_self hu, mul_one]

/-! ## Non-negativity (C1) -/

/-- C1 (evaluation at the failing input): on the ledger returned by `NewPaymentService`, the
call `TransferMoney(emissionIBAN, destructionIBAN, -5)` returns no error and leaves the
destruction account with balance `-5`, so the ledger is no longer non-negative. -/
theorem negative_transfer_breaks_nonNegative :
    (TransferMoney NewPaymentService (GetEmissionIBAN NewPaymentService)
        (GetDestructionIBAN NewPaymentService) (-5)).2 = Outcome.ok ∧
    balance
        (run NewPaymentService
          [Call.transferMoney (GetEmissionIBAN NewPaymentService)
            (GetDestructionIBAN NewPaymentService) (-5)])
        (GetDestructionIBAN NewPaymentService) = some (-5) ∧
    ¬ NonNegative
        (run NewPaymentService
          [Call.transferMoney (GetEmissionIBAN NewPaymentService)
            (GetDestructionIBAN NewPaymentService) (-5)]) := by
  have hrun :
      getAccount
        (run NewPaymentService
          [Call.transferMoney (GetEmissionIBAN NewPaymentService)
            (GetDestructionIBAN NewPaymentService) (-5)]).accounts
        (GetDestructionIBAN NewPaymentService)
        = some { IBAN := "BY0000000000000000000000000002", Balance := -5,
                 Status := StatusActive } := by
    decide!
  refine ⟨by decide!, by decide!, ?_⟩
  intro hnn
  have h := hnn _ _ hrun
  exact absurd h (by decide!)

/-! ## TransferMoney: postcondition (C2) -/

theorem Float64.toRat_one : Float64.toRat 1 = 1 := by
  have h := Float64.toRat_ofNat 1 (by decide!)
  simpa using h

/-- C2 (counterexample): in `largeLedger` the emission and the destruction account are
distinct, active and hold `2^53` each, and `1 ≤ 2^53`; `TransferMoney` of the amount `1` from
the emission to the destruction account returns no error, and the destruction account holds
`2^53` afterwards as before: its balance is not raised by the amount. -/
theorem TransferMoney_credit_lost_to_rounding :
    GetEmissionIBAN largeLedger ≠ GetDestructionIBAN largeLedger ∧
    status largeLedger (GetEmissionIBAN largeLedger) = some StatusActive ∧
    status largeLedger (GetDestructionIBAN largeLedger) = some StatusActive ∧
    balance largeLedger (GetEmissionIBAN largeLedger) = some 9007199254740992 ∧
    balance largeLedger (GetDestructionIBAN largeLedger) = some 9007199254740992 ∧
    (1 : Float64) ≤ 9007199254740992 ∧
    Float64.toRat 1 = 1 ∧
    (TransferMoney largeLedger (GetEmissionIBAN largeLedger) (GetDestructionIBAN largeLedger)
      1).2 = Outcome.ok ∧
    balance
        (TransferMoney largeLedger (GetEmissionIBAN largeLedger)
          (GetDestructionIBAN largeLedger) 1).1
        (GetDestructionIBAN largeLedger) = some 9007199254740992 :=
  ⟨by decide!, by decide!, by decide!, by decide!, by decide!, by decide!, Float64.toRat_one,
    by decide!, by decide!⟩

/-- C2 (amended): a transfer between two distinct existing accounts, neither blocked, with
`balance(from) ≥ amount`, returns no error; the balance of `from` becomes the `float64`
difference `balance(from) - amount` and the balance of `to` the `float64` sum
`balance(to) + amount`, which are the exact difference and the exact sum whenever these are
`float64` values; every other account, every status and identifier, and the keys of the
account map are unchanged. -/
theorem TransferMoney_postcondition (ps : PaymentService) (fromIBAN toIBAN : String)
    (amount : Float64) (fromAccount toAccount : Account)
    (hne : fromIBAN ≠ toIBAN)
    (hfrom : getAccount ps.accounts fromIBAN = some fromAccount)
    (hto : getAccount ps.accounts toIBAN = some toAccount)
    (hfs : fromAccount.Status ≠ StatusBlocked) (hts : toAccount.Status ≠ StatusBlocked)
    (hbal : amount ≤ fromAccount.Balance) :
    (TransferMoney ps fromIBAN toIBAN amount).2 = Outcome.ok ∧
    getAccount (TransferMoney ps fromIBAN toIBAN amount).1.accounts fromIBAN
      = some { IBAN := fromAccount.IBAN, Balance := fromAccount.Balance - amount,
               Status := fromAccount.Status } ∧
    getAccount (TransferMoney ps fromIBAN toIBAN amount).1.accounts toIBAN
      = some { IBAN := toAccount.IBAN, Balance := toAccount.Balance + amount,
               Status := toAccount.Status } ∧
    (Float64.isExactSub fromAccount.Balance amount = true →
      (fromAccount.Balance - amount).toRat = fromAccount.Balance.toRat - amount.toRat) ∧
    (Float64.isExactAdd toAccount.Balance amount = true →
      (toAccount.Balance + amount).toRat = toAccount.Balance.toRat + amount.toRat) ∧
    (∀ k, k ≠ fromIBAN → k ≠ toIBAN →
      getAccount (TransferMoney ps fromIBAN toIBAN amount).1.accounts k
        = getAccount ps.accounts k) ∧
    keys (TransferMoney ps fromIBAN toIBAN amount).1.accounts = keys ps.accounts ∧
    (TransferMoney ps fromIBAN toIBAN amount).1.emissionIBAN = ps.emissionIBAN ∧
    (TransferMoney ps fromIBAN toIBAN amount).1.destructionIBAN = ps.destructionIBAN := by
  rw [TransferMoney_ok ps fromIBAN toIBAN amount fromAccount toAccount hfrom hto hfs hts
    (Float64.not_lt_of_le _ _ hbal)]
  refine ⟨rfl, ?_, ?_, Float64.toRat_sub_of_exact _ _, Float64.toRat_add_of_exact _ _, ?_, ?_,
    rfl, rfl⟩
  · simp only [credit, debit]
    rw [getAccount_updateAccount_ne _ _ _ _ hne, getAccount_updateAccount_self, hfrom]
    rfl
  · simp only [credit, debit]
    rw [getAccount_updateAccount_self, getAccount_updateAccount_ne _ _ _ _ (Ne.symm hne), hto]
    rfl
  · intro k hk₁ hk₂
    simp only [credit, debit]
    rw [getAccount_updateAccount_ne _ _ _ _ hk₂, getAccount_updateAccount_ne _ _ _ _ hk₁]
  · simp only [credit, debit, keys_updateAccount]

/-- C2 (witness): the transfer of 200 from the emission account (balance 500) to the
destruction account of `fundedLedger`. -/
theorem TransferMoney_postcondition_witness :
    (TransferMoney fundedLedger "BY00000000000000000000000000001"
        "BY0000000000000000000000000002" 200).2 = Outcome.ok ∧
    getAccount
        (TransferMoney fundedLedger "BY00000000000000000000000000001"
          "BY0000000000000000000000000002" 200).1.accounts
        "BY00000000000000000000000000001"
      = some { IBAN := "BY00000000000000000000000000001", Balance := 500 - 200,
               Status := StatusActive } :=
  have h :=
    TransferMoney_postcondition fundedLedger "BY00000000000000000000000000001"
      "BY0000000000000000000000000002" 200
      { IBAN := "BY00000000000000000000000000001", Balance := 500, Status := StatusActive }
      { IBAN := "BY0000000000000000000000000002", Balance := 0, Status := StatusActive }
      (by decide) (by decide!) (by decide!) (by decide) (by decide) (by decide!)
  ⟨h.1, h.2.1⟩

/-! ## TransferMoney: failure classification (C3) -/

/-- C3: `TransferMoney` returns the account-not-found error exactly when `from` or `to` is not
a key; otherwise the account-blocked error exactly when one of the two accounts is blocked;
otherwise the insufficient-funds error exactly when `balance(from) < amount`; and it returns
no error exactly when none of the three conditions holds. -/
theorem TransferMoney_failure_classification (ps : PaymentService) (fromIBAN toIBAN : String)
    (amount : Float64) :
    ((TransferMoney ps fromIBAN toIBAN amount).2 = Outcome.error LedgerError.oneAccountMissing ↔
      (fromIBAN ∉ keys ps.accounts ∨ toIBAN ∉ keys ps.accounts)) ∧
    ((TransferMoney ps fromIBAN toIBAN amount).2 = Outcome.error LedgerError.oneAccountBlocked ↔
      ¬ (fromIBAN ∉ keys ps.accounts ∨ toIBAN ∉ keys ps.accounts) ∧
      (isBlocked ps fromIBAN ∨ isBlocked ps toIBAN)) ∧
    ((TransferMoney ps fromIBAN toIBAN amount).2 = Outcome.error LedgerError.insufficientFunds ↔
      ¬ (fromIBAN ∉ keys ps.accounts ∨ toIBAN ∉ keys ps.accounts) ∧
      ¬ (isBlocked ps fromIBAN ∨ isBlocked ps toIBAN) ∧
      lacksFunds ps fromIBAN amount) ∧
    ((TransferMoney ps fromIBAN toIBAN amount).2 = Outcome.ok ↔
      ¬ (fromIBAN ∉ keys ps.accounts ∨ toIBAN ∉ keys ps.accounts) ∧
      ¬ (isBlocked ps fromIBAN ∨ isBlocked ps toIBAN) ∧
      ¬ lacksFunds ps fromIBAN amount) := by
  simp only [← getAccount_eq_none_iff, isBlocked, lacksFunds, status, balance]
  cases hf : getAccount ps.accounts fromIBAN with
  | none => simp [TransferMoney_missing ps fromIBAN toIBAN amount (Or.inl hf)]
  | some fromAccount =>
    cases ht : getAccount ps.accounts toIBAN with
    | none => simp [TransferMoney_missing ps fromIBAN toIBAN amount (Or.inr ht)]
    | some toAccount =>
      by_cases hb : fromAccount.Status = StatusBlocked ∨ toAccount.Status = StatusBlocked
      · rw [TransferMoney_blocked ps fromIBAN toIBAN amount _ _ hf ht hb]
        simp [hb]
      · have hfs : fromAccount.Status ≠ StatusBlocked := fun h => hb (Or.inl h)
        have hts : toAccount.Status ≠ StatusBlocked := fun h => hb (Or.inr h)
        by_cases hlt : fromAccount.Balance < amount
        · rw [TransferMoney_insufficient ps fromIBAN toIBAN amount _ _ hf ht hfs hts hlt]
          simp [hfs, hts, hlt]
        · rw [TransferMoney_ok ps fromIBAN toIBAN amount _ _ hf ht hfs hts hlt]
          simp [hfs, hts, hlt]

/-! ## Failed calls (C4) -/

/-- C4: whenever `Emission`, `DestroyMoney` or `TransferMoney` returns an error, the service
after the call (account map with every record, and the two distinguished identifiers) is the
service before the call. -/
theorem error_leaves_state_unchanged (ps : PaymentService) (e : LedgerError) :
    (∀ amount, (Emission ps amount).2 = Outcome.error e → (Emission ps amount).1 = ps) ∧
    (∀ fromIBAN amount, (DestroyMoney ps fromIBAN amount).2 = Outcome.error e →
      (DestroyMoney ps fromIBAN amount).1 = ps) ∧
    (∀ fromIBAN toIBAN amount, (TransferMoney ps fromIBAN toIBAN amount).2 = Outcome.error e →
      (TransferMoney ps fromIBAN toIBAN amount).1 = ps) := by
  refine ⟨?_, ?_, ?_⟩
  · intro amount h
    by_cases ha : amount ≤ 0
    · rw [Emission_invalid ps amount ha]
    · by_cases hsrc : ps.emissionIBAN ∈ keys ps.accounts
      · rw [Emission_ok ps amount ha hsrc] at h; simp at h
      · rw [Emission_nilDeref ps amount ha hsrc]
  · intro fromIBAN amount h
    cases hf : getAccount ps.accounts fromIBAN with
    | none => rw [DestroyMoney_missing ps fromIBAN amount hf]
    | some account =>
      by_cases hs : account.Status = StatusBlocked
      · rw [DestroyMoney_blocked ps fromIBAN amount _ hf hs]
      · by_cases hlt : account.Balance < amount
        · rw [DestroyMoney_insufficient ps fromIBAN amount _ hf hs hlt]
        · by_cases hsink : ps.destructionIBAN ∈ keys ps.accounts
          · rw [DestroyMoney_ok ps fromIBAN amount _ hf hs hlt hsink] at h
            simp at h
          · rw [DestroyMoney_nilDeref ps fromIBAN amount _ hf hs hlt hsink] at h
            simp at h
  · intro fromIBAN toIBAN amount h
    cases hf : getAccount ps.accounts fromIBAN with
    | none => rw [TransferMoney_missing ps fromIBAN toIBAN amount (Or.inl hf)]
    | some fromAccount =>
      cases ht : getAccount ps.accounts toIBAN with
      | none => rw [TransferMoney_missing ps fromIBAN toIBAN amount (Or.inr ht)]
      | some toAccount =>
        by_cases hb : fromAccount.Status = StatusBlocked ∨ toAccount.Status = StatusBlocked
        · rw [TransferMoney_blocked ps fromIBAN toIBAN amount _ _ hf ht hb]
        · have hfs : fromAccount.Status ≠ StatusBlocked := fun h => hb (Or.inl h)
          have hts : toAccount.Status ≠ StatusBlocked := fun h => hb (Or.inr h)
          by_cases hlt : fromAccount.Balance < amount
          · rw [TransferMoney_insufficient ps fromIBAN toIBAN amount _ _ hf ht hfs hts hlt]
          · rw [TransferMoney_ok ps fromIBAN toIBAN amount _ _ hf ht hfs hts hlt] at h
            simp at h

/-- C4 (witness): on `fundedLedger` the new account holds 500; `Emission(0)`,
`DestroyMoney` of 1000 from it and `TransferMoney` of 1000 from it to the emission account
each fail and leave `fundedLedger` as it was. -/
theorem error_leaves_state_unchanged_witness :
    (Emission fundedLedger 0).1 = fundedLedger ∧
    (DestroyMoney fundedLedger "BY07CBDC00000000000000000042" 1000).1 = fundedLedger ∧
    (TransferMoney fundedLedger "BY07CBDC00000000000000000042"
      "BY00000000000000000000000000001" 1000).1 = fundedLedger :=
  ⟨(error_leaves_state_unchanged fundedLedger LedgerError.invalidAmount).1 0
      (by decide!),
   (error_leaves_state_unchanged fundedLedger LedgerError.insufficientFunds).2.1
      "BY07CBDC00000000000000000042" 1000
      (by decide!),
   (error_leaves_state_unchanged fundedLedger LedgerError.insufficientFunds).2.2
      "BY07CBDC00000000000000000042" "BY00000000000000000000000000001" 1000
      (by decide!)⟩

/-! ## Supply accounting (C5) -/

theorem Float64.isExactAdd_sub_of_exact (x y : Float64)
    (h : Float64.isExactSub x y = true) : Float64.isExactAdd (x - y) y = true := by
  cases x with
  | finite a ha =>
    cases y with
    | finite b hb =>
      simp only [Float64.isExactSub, decide_eq_true_eq] at h
      have h' : Representable (a + -b) := by rw [← sub_eq_add_neg]; exact h
      rw [Float64.sub_def, Float64.neg_finite, Float64.add_finite, Float64.round_eq_self _ h']
      simp only [Float64.isExactAdd, decide_eq_true_eq]
      rw [show a + -b + b = a by omega]
      exact ha
    | posInf => simp [Float64.isExactSub] at h
    | negInf => simp [Float64.isExactSub] at h
    | nan => simp [Float64.isExactSub] at h
  | posInf => simp [Float64.isExactSub] at h
  | negInf => simp [Float64.isExactSub] at h
  | nan => simp [Float64.isExactSub] at h

theorem sum_debit_exact (m : Accounts) (k : String) (amount : Float64) (a : Account)
    (h : getAccount m k = some a) (hex : Float64.isExactSub a.Balance amount = true) :
    ((debit m k amount).map (fun e => e.2.Balance.toRat)).sum
      = (m.map (fun e => e.2.Balance.toRat)).sum - amount.toRat := by
  rw [debit, sum_updateAccount m k _ a h]
  simp only [Float64.toRat_sub_of_exact _ _ hex]
  ring

theorem sum_credit_exact (m : Accounts) (k : String) (amount : Float64) (a : Account)
    (h : getAccount m k = some a) (hex : Float64.isExactAdd a.Balance amount = true) :
    ((credit m k amount).map (fun e => e.2.Balance.toRat)).sum
      = (m.map (fun e => e.2.Balance.toRat)).sum + amount.toRat := by
  rw [credit, sum_updateAccount m k _ a h]
  simp only [Float64.toRat_add_of_exact _ _ hex]
  ring

/-- A debit followed by a credit of the same amount, both without rounding, keeps the sum. -/
theorem sum_credit_debit_exact (m : Accounts) (fromIBAN toIBAN : String) (amount : Float64)
    (fromAccount toAccount : Account)
    (hfrom : getAccount m fromIBAN = some fromAccount)
    (hto : getAccount m toIBAN = some toAccount)
    (hsub : Float64.isExactSub fromAccount.Balance amount = true)
    (hadd : fromIBAN ≠ toIBAN → Float64.isExactAdd toAccount.Balance amount = true) :
    ((credit (debit m fromIBAN amount) toIBAN amount).map (fun e => e.2.Balance.toRat)).sum
      = (m.map (fun e => e.2.Balance.toRat)).sum := by
  by_cases hne : fromIBAN = toIBAN
  · subst hne
    have hd : getAccount (debit m fromIBAN amount) fromIBAN
        = some { fromAccount with Balance := fromAccount.Balance - amount } := by
      rw [debit, getAccount_updateAccount_self, hfrom]
      rfl
    rw [sum_credit_exact _ _ _ _ hd (Float64.isExactAdd_sub_of_exact _ _ hsub),
      sum_debit_exact _ _ _ _ hfrom hsub]
    ring
  · have hd : getAccount (debit m fromIBAN amount) toIBAN = some toAccount := by
      rw [debit, getAccount_updateAccount_ne _ _ _ _ (Ne.symm hne), hto]
    rw [sum_credit_exact _ _ _ _ hd (hadd hne), sum_debit_exact _ _ _ _ hfrom hsub]
    ring

theorem Float64.toRat_2p53 : Float64.toRat 9007199254740992 = 9007199254740992 := by
  have h := Float64.toRat_ofNat 9007199254740992 (by decide!)
  simpa using h

theorem Float64.toRat_2p53_pred : Float64.toRat 9007199254740991 = 9007199254740991 := by
  have h := Float64.toRat_ofNat 9007199254740991 (by decide!)
  simpa using h

/-- C5 (counterexample): in `largeLedger` the balances sum to `2^54`; `TransferMoney` of the
amount `1` from the emission to the destruction account returns no error and the balances
sum to `2^54 - 1` afterwards; `Emission(1)` returns no error and the balances still sum to
`2^54` afterwards. -/
theorem supply_not_conserved_under_rounding :
    totalSupply largeLedger = 18014398509481984 ∧
    (TransferMoney largeLedger (GetEmissionIBAN largeLedger) (GetDestructionIBAN largeLedger)
      1).2 = Outcome.ok ∧
    totalSupply
        (TransferMoney largeLedger (GetEmissionIBAN largeLedger)
          (GetDestructionIBAN largeLedger) 1).1 = 18014398509481983 ∧
    (Emission largeLedger 1).2 = Outcome.ok ∧
    totalSupply (Emission largeLedger 1).1 = 18014398509481984 := by
  have hT : (TransferMoney largeLedger (GetEmissionIBAN largeLedger)
      (GetDestructionIBAN largeLedger) 1).1 =
      { accounts :=
          [ ("BY00000000000000000000000000001",
              { IBAN := "BY00000000000000000000000000001", Balance := 9007199254740991,
                Status := StatusActive }),
            ("BY0000000000000000000000000002",
              { IBAN := "BY0000000000000000000000000002", Balance := 9007199254740992,
                Status := StatusActive }) ]
        emissionIBAN := "BY00000000000000000000000000001"
        destructionIBAN := "BY0000000000000000000000000002" } := by
    decide!
  have hE : (Emission largeLedger 1).1 = largeLedger := by decide!
  have hL : totalSupply largeLedger = 18014398509481984 := by
    rw [largeLedger_eq]
    simp only [totalSupply, List.map_cons, List.map_nil, List.sum_cons, List.sum_nil,
      Float64.toRat_2p53]
    norm_num
  refine ⟨hL, by decide!, ?_, by decide!, ?_⟩
  · rw [hT]
    simp only [totalSupply, List.map_cons, List.map_nil, List.sum_cons, List.sum_nil,
      Float64.toRat_2p53, Float64.toRat_2p53_pred]
    norm_num
  · rw [hE, hL]

/-- C5 (amended): when the `float64` addition and subtraction performed by the call involve no
rounding (their exact results are `float64` values), a successful `Emission(amount)` raises
the sum of all balances, taken as exact numbers, by exactly `amount`, and a successful
`TransferMoney` and a successful `DestroyMoney` leave it unchanged, for every choice of
identifiers, `from = to` and `from = destruction sink` included. -/
theorem supply_accounting (ps : PaymentService) :
    (∀ amount source, (Emission ps amount).2 = Outcome.ok →
      getAccount ps.accounts ps.emissionIBAN = some source →
      Float64.isExactAdd source.Balance amount = true →
      totalSupply (Emission ps amount).1 = totalSupply ps + amount.toRat) ∧
    (∀ fromIBAN toIBAN amount fromAccount toAccount,
      (TransferMoney ps fromIBAN toIBAN amount).2 = Outcome.ok →
      getAccount ps.accounts fromIBAN = some fromAccount →
      getAccount ps.accounts toIBAN = some toAccount →
      Float64.isExactSub fromAccount.Balance amount = true →
      (fromIBAN ≠ toIBAN → Float64.isExactAdd toAccount.Balance amount = true) →
      totalSupply (TransferMoney ps fromIBAN toIBAN amount).1 = totalSupply ps) ∧
    (∀ fromIBAN amount account sink,
      (DestroyMoney ps fromIBAN amount).2 = Outcome.ok →
      getAccount ps.accounts fromIBAN = some account →
      getAccount ps.accounts ps.destructionIBAN = some sink →
      Float64.isExactSub account.Balance amount = true →
      (fromIBAN ≠ ps.destructionIBAN → Float64.isExactAdd sink.Balance amount = true) →
      totalSupply (DestroyMoney ps fromIBAN amount).1 = totalSupply ps) := by
  refine ⟨?_, ?_, ?_⟩
  · intro amount source h hsrc hex
    rcases Emission_cases ps amount with ⟨-, hno⟩ | ⟨-, -, heq⟩
    · exact absurd h hno
    · rw [heq]
      exact sum_credit_exact _ _ _ _ hsrc hex
  · intro fromIBAN toIBAN amount fromAccount toAccount h hfrom hto hsub hadd
    rcases TransferMoney_cases ps fromIBAN toIBAN amount with
      ⟨-, e, he⟩ | ⟨_, _, -, -, -, -, -, heq⟩
    · rw [he] at h; simp at h
    · rw [heq]
      exact sum_credit_debit_exact _ _ _ _ _ _ hfrom hto hsub hadd
  · intro fromIBAN amount account sink h hfrom hsink hsub hadd
    rcases DestroyMoney_cases ps fromIBAN amount with ⟨-, e, he⟩ | ⟨_, -, -, -, hc⟩
    · rw [he] at h; simp at h
    · rcases hc with ⟨-, heq⟩ | ⟨-, heq⟩
      · rw [heq]
        exact sum_credit_debit_exact _ _ _ _ _ _ hfrom hsink hsub hadd
      · rw [heq] at h; simp at h

/-- C5 (witness): on `fundedLedger`, an emission of 1000, a transfer of 100 from the new
account to itself and a destruction of 0 from the destruction account itself. -/
theorem supply_accounting_witness :
    totalSupply (Emission fundedLedger 1000).1
      = totalSupply fundedLedger + Float64.toRat 1000 ∧
    totalSupply
      (TransferMoney fundedLedger "BY07CBDC00000000000000000042"
        "BY07CBDC00000000000000000042" 100).1 = totalSupply fundedLedger ∧
    totalSupply (DestroyMoney fundedLedger fundedLedger.destructionIBAN 0).1
      = totalSupply fundedLedger :=
  ⟨(supply_accounting fundedLedger).1 1000
      { IBAN := "BY00000000000000000000000000001", Balance := 500, Status := StatusActive }
      (by decide!) (by decide!) (by decide!),
   (supply_accounting fundedLedger).2.1 "BY07CBDC00000000000000000042"
      "BY07CBDC00000000000000000042" 100
      { IBAN := "BY07CBDC00000000000000000042", Balance := 500, Status := StatusActive }
      { IBAN := "BY07CBDC00000000000000000042", Balance := 500, Status := StatusActive }
      (by decide!) (by decide!) (by decide!) (by decide!) (fun h => absurd rfl h),
   (supply_accounting fundedLedger).2.2 fundedLedger.destructionIBAN 0
      { IBAN := "BY0000000000000000000000000002", Balance := 0, Status := StatusActive }
      { IBAN := "BY0000000000000000000000000002", Balance := 0, Status := StatusActive }
      (by decide!) (by decide!) (by decide!) (by decide!) (fun h => absurd rfl h)⟩

/-! ## DestroyMoney (C6, C7) -/

theorem setStatus_keys (ps : PaymentService) (k : String) (st : AccountStatus) :
    keys (setStatus ps k st).accounts = keys ps.accounts ∧
    (setStatus ps k st).emissionIBAN = ps.emissionIBAN ∧
    (setStatus ps k st).destructionIBAN = ps.destructionIBAN :=
  ⟨keys_updateAccount _ _ _, rfl, rfl⟩

theorem mem_keys_setAccount (m : Accounts) (k k₀ : String) (a : Account) (h : k₀ ∈ keys m) :
    k₀ ∈ keys (setAccount m k a) := by
  by_cases hk : k ∈ keys m
  · rw [keys_setAccount_of_mem m k a hk]; exact h
  · rw [setAccount_of_not_mem m k a hk]
    simp only [keys, List.map_append, List.mem_append]
    exact Or.inl h

theorem perform_distinguished (ps : PaymentService) (c : Call) :
    (perform ps c).1.emissionIBAN = ps.emissionIBAN ∧
    (perform ps c).1.destructionIBAN = ps.destructionIBAN := by
  cases c with
  | createAccount newIBAN => exact ⟨rfl, rfl⟩
  | emission amount =>
    rcases Emission_cases ps amount with ⟨h, -⟩ | ⟨-, -, h⟩
    · simp only [perform, h, and_self]
    · simp only [perform, h, and_self]
  | destroyMoney fromIBAN amount =>
    rcases DestroyMoney_cases ps fromIBAN amount with ⟨h, -⟩ | ⟨_, -, -, -, h⟩
    · simp only [perform, h, and_self]
    · rcases h with ⟨-, h⟩ | ⟨-, h⟩ <;> simp only [perform, h, and_self]
  | transferMoney fromIBAN toIBAN amount =>
    rcases TransferMoney_cases ps fromIBAN toIBAN amount with ⟨h, -⟩ | ⟨_, _, -, -, -, -, -, h⟩
    · simp only [perform, h, and_self]
    · simp only [perform, h, and_self]

theorem mem_keys_perform (ps : PaymentService) (c : Call) (k : String)
    (hk : k ∈ keys ps.accounts) : k ∈ keys (perform ps c).1.accounts := by
  cases c with
  | createAccount newIBAN => exact mem_keys_setAccount _ _ _ _ hk
  | emission amount =>
    rcases Emission_cases ps amount with ⟨h, -⟩ | ⟨-, -, h⟩
    · simp only [perform, h]; exact hk
    · simp only [perform, h, credit, keys_updateAccount]; exact hk
  | destroyMoney fromIBAN amount =>
    rcases DestroyMoney_cases ps fromIBAN amount with ⟨h, -⟩ | ⟨_, -, -, -, h⟩
    · simp only [perform, h]; exact hk
    · rcases h with ⟨-, h⟩ | ⟨-, h⟩
      · simp only [perform, h, credit, debit, keys_updateAccount]; exact hk
      · simp only [perform, h, debit, keys_updateAccount]; exact hk
  | transferMoney fromIBAN toIBAN amount =>
    rcases TransferMoney_cases ps fromIBAN toIBAN amount with ⟨h, -⟩ | ⟨_, _, -, -, -, -, -, h⟩
    · simp only [perform, h]; exact hk
    · simp only [perform, h, credit, debit, keys_updateAccount]; exact hk

theorem perform_ne_nilDeref (ps : PaymentService) (c : Call)
    (hsrc : ps.emissionIBAN ∈ keys ps.accounts)
    (hsink : ps.destructionIBAN ∈ keys ps.accounts) :
    (perform ps c).2 ≠ Outcome.nilDeref := by
  cases c with
  | createAccount newIBAN => simp [perform]
  | emission amount =>
    by_cases ha : amount ≤ 0
    · simp [perform, Emission_invalid ps amount ha]
    · simp [perform, Emission_ok ps amount ha hsrc]
  | destroyMoney fromIBAN amount =>
    rcases DestroyMoney_cases ps fromIBAN amount with ⟨-, e, h⟩ | ⟨_, -, -, -, h⟩
    · simp [perform, h]
    · rcases h with ⟨-, h⟩ | ⟨hno, -⟩
      · simp [perform, h]
      · exact absurd hsink hno
  | transferMoney fromIBAN toIBAN amount =>
    rcases TransferMoney_cases ps fromIBAN toIBAN amount with ⟨-, e, h⟩ | ⟨_, _, -, -, -, -, -, h⟩
    · simp [perform, h]
    · simp [perform, h]

/-- Every state the program can be in contains the emission and the destruction account. -/
theorem reachable_distinguished (ps : PaymentService) (h : Reachable ps) :
    ps.emissionIBAN ∈ keys ps.accounts ∧ ps.destructionIBAN ∈ keys ps.accounts := by
  induction h with
  | init => exact ⟨by decide, by decide⟩
  | call ps c _ ih =>
    have hd := perform_distinguished ps c
    rw [hd.1, hd.2]
    exact ⟨mem_keys_perform ps c _ ih.1, mem_keys_perform ps c _ ih.2⟩
  | statusWrite ps k st _ ih =>
    have hs := setStatus_keys ps k st
    rw [hs.1, hs.2.1, hs.2.2]
    exact ih

/-- C6: in every ledger state (the destruction account is a key of the map, as it is in every
state the program can be in, see `reachable_distinguished`), `DestroyMoney` returns the
account-not-found error exactly when `fromIBAN` is not a key; otherwise the account-blocked
error exactly when that account is blocked; otherwise the insufficient-funds error exactly
when its balance is below `amount`; and it returns no error exactly when none of the three
holds. -/
theorem DestroyMoney_failure_order (ps : PaymentService)
    (hsink : ps.destructionIBAN ∈ keys ps.accounts) (fromIBAN : String) (amount : Float64) :
    ((DestroyMoney ps fromIBAN amount).2
        = Outcome.error (LedgerError.accountNotFound fromIBAN) ↔
      fromIBAN ∉ keys ps.accounts) ∧
    ((DestroyMoney ps fromIBAN amount).2
        = Outcome.error (LedgerError.accountBlocked fromIBAN) ↔
      fromIBAN ∈ keys ps.accounts ∧ isBlocked ps fromIBAN) ∧
    ((DestroyMoney ps fromIBAN amount).2 = Outcome.error LedgerError.insufficientFunds ↔
      fromIBAN ∈ keys ps.accounts ∧ ¬ isBlocked ps fromIBAN ∧
      lacksFunds ps fromIBAN amount) ∧
    ((DestroyMoney ps fromIBAN amount).2 = Outcome.ok ↔
      fromIBAN ∈ keys ps.accounts ∧ ¬ isBlocked ps fromIBAN ∧
      ¬ lacksFunds ps fromIBAN amount) := by
  have hmem : fromIBAN ∈ keys ps.accounts ↔ ¬ getAccount ps.accounts fromIBAN = none := by
    rw [getAccount_eq_none_iff, not_not]
  simp only [hmem, isBlocked, lacksFunds, status, balance]
  cases hf : getAccount ps.accounts fromIBAN with
  | none => simp [DestroyMoney_missing ps fromIBAN amount hf]
  | some account =>
    by_cases hs : account.Status = StatusBlocked
    · rw [DestroyMoney_blocked ps fromIBAN amount _ hf hs]
      simp [hs]
    · by_cases hlt : account.Balance < amount
      · rw [DestroyMoney_insufficient ps fromIBAN amount _ hf hs hlt]
        simp [hs, hlt]
      · rw [DestroyMoney_ok ps fromIBAN amount _ hf hs hlt hsink]
        simp [hs, hlt]

/-- C6 (witness): on `fundedLedger`, which the program reaches by three calls, the
destruction of 1000 from the new account (balance 500) fails with the insufficient-funds
error. -/
theorem DestroyMoney_failure_order_witness :
    Reachable fundedLedger ∧
    (DestroyMoney fundedLedger "BY07CBDC00000000000000000042" 1000).2
      = Outcome.error LedgerError.insufficientFunds :=
  ⟨Reachable.call _ _ (Reachable.call _ _ (Reachable.call _ _ Reachable.init)),
   ((DestroyMoney_failure_order fundedLedger (by decide!) "BY07CBDC00000000000000000042"
      1000).2.2.1).mpr
      ⟨by decide!, by unfold isBlocked; decide!, 500, by decide!, by decide!⟩⟩

/-- C7 (counterexample): in `largeLedger` the destruction account holds `2^53`; the
destruction of the amount `1` from the emission account (active, balance `2^53`, not the
destruction account) returns no error, and the destruction account holds `2^53` afterwards
as before: its balance is not raised by the amount. -/
theorem DestroyMoney_credit_lost_to_rounding :
    GetEmissionIBAN largeLedger ≠ GetDestructionIBAN largeLedger ∧
    status largeLedger (GetEmissionIBAN largeLedger) = some StatusActive ∧
    balance largeLedger (GetEmissionIBAN largeLedger) = some 9007199254740992 ∧
    balance largeLedger (GetDestructionIBAN largeLedger) = some 9007199254740992 ∧
    (1 : Float64) ≤ 9007199254740992 ∧
    Float64.toRat 1 = 1 ∧
    (DestroyMoney largeLedger (GetEmissionIBAN largeLedger) 1).2 = Outcome.ok ∧
    balance (DestroyMoney largeLedger (GetEmissionIBAN largeLedger) 1).1
      (GetDestructionIBAN largeLedger) = some 9007199254740992 :=
  ⟨by decide!, by decide!, by decide!, by decide!, by decide!, Float64.toRat_one, by decide!,
    by decide!⟩

/-- C7 (amended): when the destruction account exists, `DestroyMoney` from an existing,
non-blocked account other than the destruction account, with `balance ≥ amount`, returns no
error; that account's balance becomes the `float64` difference `balance - amount` and the
destruction account's balance the `float64` sum of its balance and `amount`, which are the
exact difference and the exact sum whenever these are `float64` values; every other account,
every status and identifier and the keys are unchanged. -/
theorem DestroyMoney_postcondition (ps : PaymentService) (fromIBAN : String) (amount : Float64)
    (account sink : Account)
    (hsink : getAccount ps.accounts ps.destructionIBAN = some sink)
    (hfrom : getAccount ps.accounts fromIBAN = some account)
    (hne : fromIBAN ≠ ps.destructionIBAN)
    (hs : account.Status ≠ StatusBlocked)
    (hbal : amount ≤ account.Balance) :
    (DestroyMoney ps fromIBAN amount).2 = Outcome.ok ∧
    getAccount (DestroyMoney ps fromIBAN amount).1.accounts fromIBAN
      = some { IBAN := account.IBAN, Balance := account.Balance - amount,
               Status := account.Status } ∧
    getAccount (DestroyMoney ps fromIBAN amount).1.accounts ps.destructionIBAN
      = some { IBAN := sink.IBAN, Balance := sink.Balance + amount, Status := sink.Status } ∧
    (Float64.isExactSub account.Balance amount = true →
      (account.Balance - amount).toRat = account.Balance.toRat - amount.toRat) ∧
    (Float64.isExactAdd sink.Balance amount = true →
      (sink.Balance + amount).toRat = sink.Balance.toRat + amount.toRat) ∧
    (∀ k, k ≠ fromIBAN → k ≠ ps.destructionIBAN →
      getAccount (DestroyMoney ps fromIBAN amount).1.accounts k = getAccount ps.accounts k) ∧
    keys (DestroyMoney ps fromIBAN amount).1.accounts = keys ps.accounts ∧
    (DestroyMoney ps fromIBAN amount).1.emissionIBAN = ps.emissionIBAN ∧
    (DestroyMoney ps fromIBAN amount).1.destructionIBAN = ps.destructionIBAN := by
  have hk : ps.destructionIBAN ∈ keys ps.accounts := (mem_keys_iff _ _).mpr ⟨_, hsink⟩
  rw [DestroyMoney_ok ps fromIBAN amount account hfrom hs (Float64.not_lt_of_le _ _ hbal) hk]
  refine ⟨rfl, ?_, ?_, Float64.toRat_sub_of_exact _ _, Float64.toRat_add_of_exact _ _, ?_, ?_,
    rfl, rfl⟩
  · simp only [credit, debit]
    rw [getAccount_updateAccount_ne _ _ _ _ hne, getAccount_updateAccount_self, hfrom]
    rfl
  · simp only [credit, debit]
    rw [getAccount_updateAccount_self, getAccount_updateAccount_ne _ _ _ _ (Ne.symm hne),
      hsink]
    rfl
  · intro k hk₁ hk₂
    simp only [credit, debit]
    rw [getAccount_updateAccount_ne _ _ _ _ hk₂, getAccount_updateAccount_ne _ _ _ _ hk₁]
  · simp only [credit, debit, keys_updateAccount]

/-- C7 (witness): `DestroyMoney` of 200 from the new account of `fundedLedger` (balance 500)
leaves it with 300 and the destruction account with 200. -/
theorem DestroyMoney_postcondition_witness :
    (DestroyMoney fundedLedger "BY07CBDC00000000000000000042" 200).2 = Outcome.ok ∧
    getAccount (DestroyMoney fundedLedger "BY07CBDC00000000000000000042" 200).1.accounts
        "BY07CBDC00000000000000000042"
      = some { IBAN := "BY07CBDC00000000000000000042", Balance := 500 - 200,
               Status := StatusActive } ∧
    getAccount (DestroyMoney fundedLedger "BY07CBDC00000000000000000042" 200).1.accounts
        fundedLedger.destructionIBAN
      = some { IBAN := "BY0000000000000000000000000002", Balance := 0 + 200,
               Status := StatusActive } :=
  have h :=
    DestroyMoney_postcondition fundedLedger "BY07CBDC00000000000000000042" 200
      { IBAN := "BY07CBDC00000000000000000042", Balance := 500, Status := StatusActive }
      { IBAN := "BY0000000000000000000000000002", Balance := 0, Status := StatusActive }
      (by decide!) (by decide!) (by decide!) (by decide) (by decide!)
  ⟨h.1, h.2.1, h.2.2.1⟩

/-! ## Emission (C8) -/

/-- C8 (counterexample): in `largeLedger` the emission account holds `2^53`; `Emission(1)`
returns no error and the emission account holds `2^53` afterwards as before: its balance is
not raised by the amount. -/
theorem Emission_credit_lost_to_rounding :
    balance largeLedger (GetEmissionIBAN largeLedger) = some 9007199254740992 ∧
    (0 : Float64) < 1 ∧
    Float64.toRat 1 = 1 ∧
    (Emission largeLedger 1).2 = Outcome.ok ∧
    balance (Emission largeLedger 1).1 (GetEmissionIBAN largeLedger)
      = some 9007199254740992 :=
  ⟨by decide!, by decide!, Float64.toRat_one, by decide!, by decide!⟩

/-- C8 (amended): when the emission account exists, `Emission(amount)` returns an error
exactly when `amount ≤ 0`; when `amount > 0` it returns no error whatever the status of the
emission account; the emission account's balance becomes the `float64` sum of its balance
and `amount`, which is the exact sum whenever that is a `float64` value; every other account,
every status and identifier and the keys are unchanged. -/
theorem Emission_contract (ps : PaymentService) (amount : Float64) (source : Account)
    (hsrc : getAccount ps.accounts ps.emissionIBAN = some source) :
    ((∃ e, (Emission ps amount).2 = Outcome.error e) ↔ amount ≤ 0) ∧
    (0 < amount →
      (Emission ps amount).2 = Outcome.ok ∧
      getAccount (Emission ps amount).1.accounts ps.emissionIBAN
        = some { IBAN := source.IBAN, Balance := source.Balance + amount,
                 Status := source.Status } ∧
      (Float64.isExactAdd source.Balance amount = true →
        (source.Balance + amount).toRat = source.Balance.toRat + amount.toRat) ∧
      (∀ k, k ≠ ps.emissionIBAN →
        getAccount (Emission ps amount).1.accounts k = getAccount ps.accounts k) ∧
      keys (Emission ps amount).1.accounts = keys ps.accounts ∧
      (Emission ps amount).1.emissionIBAN = ps.emissionIBAN ∧
      (Emission ps amount).1.destructionIBAN = ps.destructionIBAN) := by
  have hk : ps.emissionIBAN ∈ keys ps.accounts := (mem_keys_iff _ _).mpr ⟨_, hsrc⟩
  constructor
  · by_cases ha : amount ≤ 0
    · rw [Emission_invalid ps amount ha]
      simp [ha]
    · rw [Emission_ok ps amount ha hk]
      simp [ha]
  · intro hpos
    rw [Emission_ok ps amount (Float64.not_le_of_lt _ _ hpos) hk]
    refine ⟨rfl, ?_, Float64.toRat_add_of_exact _ _, ?_, ?_, rfl, rfl⟩
    · simp only [credit]
      rw [getAccount_updateAccount_self, hsrc]
      rfl
    · intro k hk₁
      simp only [credit]
      rw [getAccount_updateAccount_ne _ _ _ _ hk₁]
    · simp only [credit, keys_updateAccount]

/-- C8 (witness): with the emission account blocked, `Emission(1000)` still returns no error
and the emission account holds 1000 and stays blocked; `Emission(0)` returns an error. -/
theorem Emission_contract_witness :
    (∃ e, (Emission blockedSourceLedger 0).2 = Outcome.error e) ∧
    (Emission blockedSourceLedger 1000).2 = Outcome.ok ∧
    getAccount (Emission blockedSourceLedger 1000).1.accounts
        blockedSourceLedger.emissionIBAN
      = some { IBAN := "BY00000000000000000000000000001", Balance := 0 + 1000,
               Status := StatusBlocked } :=
  have h (amount : Float64) :=
    Emission_contract blockedSourceLedger amount
      { IBAN := "BY00000000000000000000000000001", Balance := 0, Status := StatusBlocked }
      (by decide!)
  ⟨(h 0).1.mpr (by decide!), ((h 1000).2 (by decide!)).1, ((h 1000).2 (by decide!)).2.1⟩

/-! ## CreateAccount (C9, C10) -/

/-- C9 (counterexample): in `fundedLedger` the account created under `GenerateIBAN 7 42` holds
500; a further `CreateAccount` whose `GenerateIBAN()` returns the same string returns that
string and leaves the account with balance 0: the record was replaced. -/
theorem CreateAccount_overwrites_on_collision :
    balance fundedLedger (GenerateIBAN 7 42) = some 500 ∧
    (CreateAccount fundedLedger (GenerateIBAN 7 42)).2 = GenerateIBAN 7 42 ∧
    balance (CreateAccount fundedLedger (GenerateIBAN 7 42)).1 (GenerateIBAN 7 42) = some 0 := by
  refine ⟨?_, rfl, ?_⟩
  · decide!
  · simp [balance, CreateAccount, getAccount_setAccount_self]

/-- C9 (amended): `CreateAccount` returns the generated identifier (it has no failure result)
and every account stored under a key other than the generated identifier has the same
identifier, balance and status afterwards; in particular, when the generated identifier was
not a key, every account that existed before is unchanged. -/
theorem CreateAccount_keeps_other_accounts (ps : PaymentService) (newIBAN : String) :
    (CreateAccount ps newIBAN).2 = newIBAN ∧
    (∀ k, k ≠ newIBAN →
      getAccount (CreateAccount ps newIBAN).1.accounts k = getAccount ps.accounts k) ∧
    (newIBAN ∉ keys ps.accounts → ∀ k a, getAccount ps.accounts k = some a →
      getAccount (CreateAccount ps newIBAN).1.accounts k = some a) := by
  refine ⟨rfl, ?_, ?_⟩
  · intro k hk
    exact getAccount_setAccount_ne _ _ _ _ hk
  · intro hnew k a hka
    have hk : k ≠ newIBAN := by
      rintro rfl
      exact hnew ((mem_keys_iff _ _).mpr ⟨a, hka⟩)
    rw [← hka]
    exact getAccount_setAccount_ne _ _ _ _ hk

/-- C9 (witness): creating the account `GenerateIBAN 7 42` on the ledger of
`NewPaymentService` leaves the emission account as it was. -/
theorem CreateAccount_keeps_other_accounts_witness :
    GenerateIBAN 7 42 ∉ keys NewPaymentService.accounts ∧
    getAccount (CreateAccount NewPaymentService (GenerateIBAN 7 42)).1.accounts
        "BY00000000000000000000000000001"
      = some { IBAN := "BY00000000000000000000000000001", Balance := 0,
               Status := StatusActive } :=
  ⟨by decide,
   (CreateAccount_keeps_other_accounts NewPaymentService (GenerateIBAN 7 42)).2.2 (by decide)
      "BY00000000000000000000000000001" _ (by decide!)⟩

/-- C10: right after `CreateAccount` returns `id`, `id` is a key of the account map and its
record has identifier `id`, balance 0 and status `StatusActive`; when `id` was not a key
before, the map gains exactly that one entry and every earlier entry is unchanged. -/
theorem CreateAccount_postcondition (ps : PaymentService) (newIBAN : String) :
    (CreateAccount ps newIBAN).2 = newIBAN ∧
    (CreateAccount ps newIBAN).2 ∈ keys (CreateAccount ps newIBAN).1.accounts ∧
    getAccount (CreateAccount ps newIBAN).1.accounts (CreateAccount ps newIBAN).2
      = some { IBAN := newIBAN, Balance := 0, Status := StatusActive } ∧
    (newIBAN ∉ keys ps.accounts →
      (CreateAccount ps newIBAN).1.accounts
        = ps.accounts ++ [(newIBAN, { IBAN := newIBAN, Balance := 0, Status := StatusActive })] ∧
      keys (CreateAccount ps newIBAN).1.accounts = keys ps.accounts ++ [newIBAN] ∧
      ∀ k, k ≠ newIBAN →
        getAccount (CreateAccount ps newIBAN).1.accounts k = getAccount ps.accounts k) := by
  have hget :
      getAccount (CreateAccount ps newIBAN).1.accounts (CreateAccount ps newIBAN).2
        = some { IBAN := newIBAN, Balance := 0, Status := StatusActive } :=
    getAccount_setAccount_self _ _ _
  refine ⟨rfl, (mem_keys_iff _ _).mpr ⟨_, hget⟩, hget, ?_⟩
  intro hnew
  have happ := setAccount_of_not_mem ps.accounts newIBAN
    { IBAN := newIBAN, Balance := 0, Status := StatusActive } hnew
  refine ⟨happ, ?_, ?_⟩
  · show keys (setAccount ps.accounts newIBAN _) = _
    rw [happ]
    simp [keys]
  · intro k hk
    exact getAccount_setAccount_ne _ _ _ _ hk

/-- C10 (witness): `CreateAccount` with the fresh identifier `GenerateIBAN 7 42` on the ledger
of `NewPaymentService` gives a map with three keys, the new one last. -/
theorem CreateAccount_postcondition_witness :
    GenerateIBAN 7 42 ∉ keys NewPaymentService.accounts ∧
    keys (CreateAccount NewPaymentService (GenerateIBAN 7 42)).1.accounts
      = keys NewPaymentService.accounts ++ [GenerateIBAN 7 42] :=
  ⟨by decide,
   ((CreateAccount_postcondition NewPaymentService (GenerateIBAN 7 42)).2.2.2
      (by decide)).2.1⟩

/-! ## Blocked accounts (C11) -/

/-- C11 (counterexample): in `blockedSinkLedger` the destruction account is blocked and holds
0; `DestroyMoney` of 200 from the new account returns no error and the blocked destruction
account holds 200 afterwards. -/
theorem DestroyMoney_credits_blocked_sink :
    isBlocked blockedSinkLedger "BY0000000000000000000000000002" ∧
    balance blockedSinkLedger "BY0000000000000000000000000002" = some 0 ∧
    (DestroyMoney blockedSinkLedger "BY07CBDC00000000000000000042" 200).2 = Outcome.ok ∧
    balance (DestroyMoney blockedSinkLedger "BY07CBDC00000000000000000042" 200).1
      "BY0000000000000000000000000002" = some 200 := by
  refine ⟨?_, by decide!, by decide!, by decide!⟩
  unfold isBlocked
  decide!

/-- C11 (amended): an account that is blocked before a call of `TransferMoney` has the same
record (so the same balance) after it, whatever the identifiers and the amount; an account
that is blocked before a call of `DestroyMoney` and is not the destruction account has the
same record after it. -/
theorem blocked_account_frozen (ps : PaymentService) (k : String) (a : Account)
    (hk : getAccount ps.accounts k = some a) (hb : a.Status = StatusBlocked) :
    (∀ fromIBAN toIBAN amount,
      getAccount (TransferMoney ps fromIBAN toIBAN amount).1.accounts k = some a) ∧
    (∀ fromIBAN amount, k ≠ ps.destructionIBAN →
      getAccount (DestroyMoney ps fromIBAN amount).1.accounts k = some a) := by
  constructor
  · intro fromIBAN toIBAN amount
    rcases TransferMoney_cases ps fromIBAN toIBAN amount with ⟨h, -⟩ | h
    · rw [h, hk]
    · obtain ⟨fromAccount, toAccount, hf, ht, hfs, hts, -, heq⟩ := h
      have hkf : k ≠ fromIBAN := by
        rintro rfl
        rw [hk] at hf
        exact hfs (by rw [← Option.some.inj hf]; exact hb)
      have hkt : k ≠ toIBAN := by
        rintro rfl
        rw [hk] at ht
        exact hts (by rw [← Option.some.inj ht]; exact hb)
      rw [heq]
      simp only [credit, debit]
      rw [getAccount_updateAccount_ne _ _ _ _ hkt, getAccount_updateAccount_ne _ _ _ _ hkf, hk]
  · intro fromIBAN amount hkd
    rcases DestroyMoney_cases ps fromIBAN amount with ⟨h, -⟩ | h
    · rw [h, hk]
    · obtain ⟨account, hf, hs, -, h⟩ := h
      have hkf : k ≠ fromIBAN := by
        rintro rfl
        rw [hk] at hf
        exact hs (by rw [← Option.some.inj hf]; exact hb)
      rcases h with ⟨-, heq⟩ | ⟨-, heq⟩
      · rw [heq]
        simp only [credit, debit]
        rw [getAccount_updateAccount_ne _ _ _ _ hkd, getAccount_updateAccount_ne _ _ _ _ hkf,
          hk]
      · rw [heq]
        simp only [debit]
        rw [getAccount_updateAccount_ne _ _ _ _ hkf, hk]

/-- C11 (witness): the blocked destruction account of `blockedSinkLedger` keeps its record
when 100 is to be transferred to it from the emission account. -/
theorem blocked_account_frozen_witness :
    getAccount
        (TransferMoney blockedSinkLedger "BY00000000000000000000000000001"
          "BY0000000000000000000000000002" 100).1.accounts
        "BY0000000000000000000000000002"
      = some { IBAN := "BY0000000000000000000000000002", Balance := 0,
               Status := StatusBlocked } :=
  (blocked_account_frozen blockedSinkLedger "BY0000000000000000000000000002"
      { IBAN := "BY0000000000000000000000000002", Balance := 0, Status := StatusBlocked }
      (by decide!)
      rfl).1
    "BY00000000000000000000000000001" "BY0000000000000000000000000002" 100

/-! ## The keys never shrink (C12) -/

theorem run_append (ps : PaymentService) (calls more : List Call) :
    run ps (calls ++ more) = run (run ps calls) more := by
  simp [run, List.foldl_append]

theorem run_distinguished (ps : PaymentService) (calls : List Call) :
    (run ps calls).emissionIBAN = ps.emissionIBAN ∧
    (run ps calls).destructionIBAN = ps.destructionIBAN := by
  induction calls generalizing ps with
  | nil => exact ⟨rfl, rfl⟩
  | cons c rest ih =>
    have h := ih (perform ps c).1
    have hc := perform_distinguished ps c
    exact ⟨h.1.trans hc.1, h.2.trans hc.2⟩

theorem mem_keys_run (ps : PaymentService) (calls : List Call) (k : String)
    (hk : k ∈ keys ps.accounts) : k ∈ keys (run ps calls).accounts := by
  induction calls generalizing ps with
  | nil => exact hk
  | cons c rest ih => exact ih (perform ps c).1 (mem_keys_perform ps c k hk)

/-- C12: in every state reached from `NewPaymentService` by a sequence of `CreateAccount`
(with any generated identifier), `Emission`, `DestroyMoney` and `TransferMoney` calls, the
emission and the destruction identifier are the ones fixed at construction and are keys of
the account map; a key of the map stays a key after any further calls; and no further call
dereferences the result of a lookup of a missing account. -/
theorem distinguished_accounts_permanent (calls : List Call) :
    (run NewPaymentService calls).emissionIBAN = GetEmissionIBAN NewPaymentService ∧
    (run NewPaymentService calls).destructionIBAN = GetDestructionIBAN NewPaymentService ∧
    GetEmissionIBAN NewPaymentService ∈ keys (run NewPaymentService calls).accounts ∧
    GetDestructionIBAN NewPaymentService ∈ keys (run NewPaymentService calls).accounts ∧
    (∀ more k, k ∈ keys (run NewPaymentService calls).accounts →
      k ∈ keys (run NewPaymentService (calls ++ more)).accounts) ∧
    (∀ c, (perform (run NewPaymentService calls) c).2 ≠ Outcome.nilDeref) := by
  have hd := run_distinguished NewPaymentService calls
  have hsrc : GetEmissionIBAN NewPaymentService ∈ keys (run NewPaymentService calls).accounts :=
    mem_keys_run _ _ _ (by decide)
  have hsink :
      GetDestructionIBAN NewPaymentService ∈ keys (run NewPaymentService calls).accounts :=
    mem_keys_run _ _ _ (by decide)
  refine ⟨hd.1, hd.2, hsrc, hsink, ?_, ?_⟩
  · intro more k hk
    rw [run_append]
    exact mem_keys_run _ _ _ hk
  · intro c
    apply perform_ne_nilDeref
    · rw [hd.1]; exact hsrc
    · rw [hd.2]; exact hsink

/-- C12 (witness): the key created by the first call is still a key after an emission and a
transfer. -/
theorem distinguished_accounts_permanent_witness :
    GenerateIBAN 7 42 ∈ keys fundedLedger.accounts :=
  (distinguished_accounts_permanent [Call.createAccount (GenerateIBAN 7 42)]).2.2.2.2.1
    [Call.emission 1000,
     Call.transferMoney (GetEmissionIBAN NewPaymentService) (GenerateIBAN 7 42) 500]
    (GenerateIBAN 7 42) (by decide)

/-! ## The initial state (C13) -/

/-- C13: the ledger of `NewPaymentService` has exactly two accounts, keyed by the emission
and the destruction identifier; the two identifiers differ; each record's identifier is its
key, its balance is 0 and its status is `StatusActive`. -/
theorem NewPaymentService_initial_state :
    keys NewPaymentService.accounts
      = [GetEmissionIBAN NewPaymentService, GetDestructionIBAN NewPaymentService] ∧
    NewPaymentService.accounts.length = 2 ∧
    GetEmissionIBAN NewPaymentService ≠ GetDestructionIBAN NewPaymentService ∧
    getAccount NewPaymentService.accounts (GetEmissionIBAN NewPaymentService)
      = some { IBAN := GetEmissionIBAN NewPaymentService, Balance := 0,
               Status := StatusActive } ∧
    getAccount NewPaymentService.accounts (GetDestructionIBAN NewPaymentService)
      = some { IBAN := GetDestructionIBAN NewPaymentService, Balance := 0,
               Status := StatusActive } := by
  exact ⟨rfl, rfl, by decide, by decide!, by decide!⟩

/-! ## Transfers on disjoint pairs (C14) -/

theorem updateAccount_comm (m : Accounts) (k k₀ : String) (f g : Account → Account)
    (h : k ≠ k₀) :
    updateAccount (updateAccount m k f) k₀ g = updateAccount (updateAccount m k₀ g) k f := by
  induction m with
  | nil => simp [updateAccount]
  | cons e rest ih =>
    obtain ⟨k', a⟩ := e
    by_cases h₁ : k' = k
    · subst h₁
      simp [updateAccount, h]
    · by_cases h₂ : k' = k₀
      · subst h₂
        simp [updateAccount, h₁]
      · simp [updateAccount, h₁, h₂, ih]

/-- The outcome of `TransferMoney` is decided by the two records it looks up. -/
theorem TransferMoney_outcome_congr (ps ps' : PaymentService) (fromIBAN toIBAN : String)
    (amount : Float64)
    (hfrom : getAccount ps.accounts fromIBAN = getAccount ps'.accounts fromIBAN)
    (hto : getAccount ps.accounts toIBAN = getAccount ps'.accounts toIBAN) :
    (TransferMoney ps fromIBAN toIBAN amount).2 = (TransferMoney ps' fromIBAN toIBAN amount).2 := by
  unfold TransferMoney
  rw [hfrom, hto]
  cases getAccount ps'.accounts fromIBAN with
  | none => rfl
  | some fromAccount =>
    cases getAccount ps'.accounts toIBAN with
    | none => rfl
    | some toAccount =>
      dsimp only
      split
      · rfl
      · split <;> rfl

/-- The service after `TransferMoney`, in terms of the outcome. -/
theorem TransferMoney_state (ps : PaymentService) (fromIBAN toIBAN : String) (amount : Float64) :
    (TransferMoney ps fromIBAN toIBAN amount).1
      = if (TransferMoney ps fromIBAN toIBAN amount).2 = Outcome.ok then
          { ps with accounts := credit (debit ps.accounts fromIBAN amount) toIBAN amount }
        else ps := by
  rcases TransferMoney_cases ps fromIBAN toIBAN amount with ⟨h, e, he⟩ | ⟨_, _, -, -, -, -, -, h⟩
  · rw [he, h]; simp
  · rw [h]; simp

/-- `TransferMoney` does not touch the records under other keys. -/
theorem TransferMoney_frame (ps : PaymentService) (fromIBAN toIBAN : String) (amount : Float64)
    (k : String) (hf : k ≠ fromIBAN) (ht : k ≠ toIBAN) :
    getAccount (TransferMoney ps fromIBAN toIBAN amount).1.accounts k
      = getAccount ps.accounts k := by
  rcases TransferMoney_cases ps fromIBAN toIBAN amount with ⟨h, -⟩ | ⟨_, _, -, -, -, -, -, h⟩
  · rw [h]
  · rw [h]
    simp only [credit, debit]
    rw [getAccount_updateAccount_ne _ _ _ _ ht, getAccount_updateAccount_ne _ _ _ _ hf]

/-- C14: for identifiers `a`, `b`, `c`, `d` with `a`, `b` both different from `c` and `d`
(in particular for four pairwise distinct identifiers) and all amounts `x`, `y`, running
`TransferMoney(a, b, x)` and then `TransferMoney(c, d, y)` gives the same final service and
the same outcome of each of the two calls as running them in the other order. -/
theorem TransferMoney_disjoint_comm (ps : PaymentService) (a b c d : String) (x y : Float64)
    (hac : a ≠ c) (had : a ≠ d) (hbc : b ≠ c) (hbd : b ≠ d) :
    (TransferMoney (TransferMoney ps a b x).1 c d y).1
      = (TransferMoney (TransferMoney ps c d y).1 a b x).1 ∧
    (TransferMoney ps a b x).2 = (TransferMoney (TransferMoney ps c d y).1 a b x).2 ∧
    (TransferMoney (TransferMoney ps a b x).1 c d y).2 = (TransferMoney ps c d y).2 := by
  have h₁ : (TransferMoney (TransferMoney ps c d y).1 a b x).2 = (TransferMoney ps a b x).2 :=
    TransferMoney_outcome_congr _ _ a b x
      (TransferMoney_frame ps c d y a hac had) (TransferMoney_frame ps c d y b hbc hbd)
  have h₂ : (TransferMoney (TransferMoney ps a b x).1 c d y).2 = (TransferMoney ps c d y).2 :=
    TransferMoney_outcome_congr _ _ c d y
      (TransferMoney_frame ps a b x c (Ne.symm hac) (Ne.symm hbc))
      (TransferMoney_frame ps a b x d (Ne.symm had) (Ne.symm hbd))
  refine ⟨?_, h₁.symm, h₂⟩
  rw [TransferMoney_state (TransferMoney ps a b x).1 c d y,
    TransferMoney_state (TransferMoney ps c d y).1 a b x, h₁, h₂,
    TransferMoney_state ps a b x, TransferMoney_state ps c d y]
  by_cases ho₁ : (TransferMoney ps a b x).2 = Outcome.ok
  · by_cases ho₂ : (TransferMoney ps c d y).2 = Outcome.ok
    · simp only [ho₁, ho₂, if_true]
      congr 1
      simp only [credit, debit]
      rw [updateAccount_comm (updateAccount ps.accounts a _) b c _ _ hbc,
        updateAccount_comm (updateAccount (updateAccount ps.accounts a _) c _) b d _ _ hbd,
        updateAccount_comm ps.accounts a c _ _ hac,
        updateAccount_comm (updateAccount ps.accounts c _) a d _ _ had]
    · simp only [ho₁, ho₂, if_true, if_false]
  · by_cases ho₂ : (TransferMoney ps c d y).2 = Outcome.ok
    · simp only [ho₁, ho₂, if_true, if_false]
    · simp only [ho₁, ho₂, if_false]

/-- C14 (witness): on `fundedLedger` with a second new account, a transfer of 100 from the
emission account to the destruction account and a transfer of 50 from the first new account
to the second. -/
theorem TransferMoney_disjoint_comm_witness :
    (TransferMoney
        (TransferMoney (CreateAccount fundedLedger (GenerateIBAN 8 43)).1
          "BY00000000000000000000000000001" "BY0000000000000000000000000002" 100).1
        (GenerateIBAN 7 42) (GenerateIBAN 8 43) 50).1
      = (TransferMoney
          (TransferMoney (CreateAccount fundedLedger (GenerateIBAN 8 43)).1
            (GenerateIBAN 7 42) (GenerateIBAN 8 43) 50).1
          "BY00000000000000000000000000001" "BY0000000000000000000000000002" 100).1 :=
  (TransferMoney_disjoint_comm (CreateAccount fundedLedger (GenerateIBAN 8 43)).1
    "BY00000000000000000000000000001" "BY0000000000000000000000000002"
    (GenerateIBAN 7 42) (GenerateIBAN 8 43) 100 50
    (by decide) (by decide) (by decide) (by decide)).1

/-! ## The scenario of the test (C15) -/

theorem Float64.test_arithmetic :
    ¬ (1000 : Float64) ≤ 0 ∧ (0 : Float64) + 1000 = 1000 ∧ ¬ (1000 : Float64) < 500 ∧
    (1000 : Float64) - 500 = 500 ∧ (0 : Float64) + 500 = 500 ∧ (500 : Float64) < 1000 ∧
    ¬ (500 : Float64) < 200 ∧ (500 : Float64) - 200 = 300 ∧ (0 : Float64) + 200 = 200 := by
  decide!

theorem active_ne_blocked : StatusActive ≠ StatusBlocked := by decide

theorem testAfterEmission_eq :
    testAfterEmission =
      { accounts :=
          [ ("BY00000000000000000000000000001",
              { IBAN := "BY00000000000000000000000000001", Balance := 1000,
                Status := StatusActive }),
            ("BY0000000000000000000000000002",
              { IBAN := "BY0000000000000000000000000002", Balance := 0,
                Status := StatusActive }) ]
        emissionIBAN := "BY00000000000000000000000000001"
        destructionIBAN := "BY0000000000000000000000000002" } := by
  decide!

theorem testAfterCreate_eq (A : String)
    (hAe : A ≠ GetEmissionIBAN NewPaymentService)
    (hAd : A ≠ GetDestructionIBAN NewPaymentService) :
    testAfterCreate A =
      { accounts :=
          [ ("BY00000000000000000000000000001",
              { IBAN := "BY00000000000000000000000000001", Balance := 1000,
                Status := StatusActive }),
            ("BY0000000000000000000000000002",
              { IBAN := "BY0000000000000000000000000002", Balance := 0,
                Status := StatusActive }),
            (A, { IBAN := A, Balance := 0, Status := StatusActive }) ]
        emissionIBAN := "BY00000000000000000000000000001"
        destructionIBAN := "BY0000000000000000000000000002" } := by
  have h₁ : ¬ "BY00000000000000000000000000001" = A := fun h => hAe h.symm
  have h₂ : ¬ "BY0000000000000000000000000002" = A := fun h => hAd h.symm
  rw [testAfterCreate, testAfterEmission_eq]
  simp only [CreateAccount, setAccount, h₁, h₂, if_false]

theorem testAfterTransfer_eq (A : String)
    (hAe : A ≠ GetEmissionIBAN NewPaymentService)
    (hAd : A ≠ GetDestructionIBAN NewPaymentService) :
    testAfterTransfer A =
      { accounts :=
          [ ("BY00000000000000000000000000001",
              { IBAN := "BY00000000000000000000000000001", Balance := 500,
                Status := StatusActive }),
            ("BY0000000000000000000000000002",
              { IBAN := "BY0000000000000000000000000002", Balance := 0,
                Status := StatusActive }),
            (A, { IBAN := A, Balance := 500, Status := StatusActive }) ]
        emissionIBAN := "BY00000000000000000000000000001"
        destructionIBAN := "BY0000000000000000000000000002" } := by
  have h₁ : ¬ "BY00000000000000000000000000001" = A := fun h => hAe h.symm
  have h₂ : ¬ "BY0000000000000000000000000002" = A := fun h => hAd h.symm
  have s₁ : ¬ "BY0000000000000000000000000002" = "BY00000000000000000000000000001" := by
    decide
  obtain ⟨-, -, f₃, f₄, f₅, -, -, -, -⟩ := Float64.test_arithmetic
  have he : GetEmissionIBAN testAfterEmission = "BY00000000000000000000000000001" := by
    decide!
  rw [testAfterTransfer, he, testAfterCreate_eq A hAe hAd]
  rw [TransferMoney_ok _ _ _ _
      { IBAN := "BY00000000000000000000000000001", Balance := 1000, Status := StatusActive }
      { IBAN := A, Balance := 0, Status := StatusActive }
      (by simp only [getAccount, if_true])
      (by simp only [getAccount, h₁, h₂, if_false, if_true])
      active_ne_blocked active_ne_blocked f₃]
  simp only [credit, debit, updateAccount, h₁, h₂, s₁, if_false, if_true, f₄, f₅]

theorem testAfterFailedTransfer_eq (A : String)
    (hAe : A ≠ GetEmissionIBAN NewPaymentService)
    (hAd : A ≠ GetDestructionIBAN NewPaymentService) :
    TransferMoney (testAfterTransfer A) A (GetEmissionIBAN testAfterEmission) 1000
      = (testAfterTransfer A, Outcome.error LedgerError.insufficientFunds) := by
  have h₁ : ¬ "BY00000000000000000000000000001" = A := fun h => hAe h.symm
  have h₂ : ¬ "BY0000000000000000000000000002" = A := fun h => hAd h.symm
  obtain ⟨-, -, -, -, -, f₆, -, -, -⟩ := Float64.test_arithmetic
  have he : GetEmissionIBAN testAfterEmission = "BY00000000000000000000000000001" := by
    decide!
  rw [he]
  apply TransferMoney_insufficient _ _ _ _
      { IBAN := A, Balance := 500, Status := StatusActive }
      { IBAN := "BY00000000000000000000000000001", Balance := 500, Status := StatusActive }
  · rw [testAfterTransfer_eq A hAe hAd]
    simp only [getAccount, h₁, h₂, if_false, if_true]
  · rw [testAfterTransfer_eq A hAe hAd]
    simp only [getAccount, if_true]
  · exact active_ne_blocked
  · exact active_ne_blocked
  · exact f₆

theorem testAfterDestroy_outcome (A : String)
    (hAe : A ≠ GetEmissionIBAN NewPaymentService)
    (hAd : A ≠ GetDestructionIBAN NewPaymentService) :
    DestroyMoney (testAfterFailedTransfer A) A 200 =
      ({ accounts :=
          [ ("BY00000000000000000000000000001",
              { IBAN := "BY00000000000000000000000000001", Balance := 500,
                Status := StatusActive }),
            ("BY0000000000000000000000000002",
              { IBAN := "BY0000000000000000000000000002", Balance := 200,
                Status := StatusActive }),
            (A, { IBAN := A, Balance := 300, Status := StatusActive }) ]
         emissionIBAN := "BY00000000000000000000000000001"
         destructionIBAN := "BY0000000000000000000000000002" }, Outcome.ok) := by
  have h₁ : ¬ "BY00000000000000000000000000001" = A := fun h => hAe h.symm
  have h₂ : ¬ "BY0000000000000000000000000002" = A := fun h => hAd h.symm
  have s₂ : ¬ "BY00000000000000000000000000001" = "BY0000000000000000000000000002" := by
    decide
  obtain ⟨-, -, -, -, -, -, f₇, f₈, f₉⟩ := Float64.test_arithmetic
  have hF : testAfterFailedTransfer A = testAfterTransfer A := by
    rw [testAfterFailedTransfer, testAfterFailedTransfer_eq A hAe hAd]
  rw [hF, testAfterTransfer_eq A hAe hAd]
  rw [DestroyMoney_ok _ _ _
      { IBAN := A, Balance := 500, Status := StatusActive }
      (by simp only [getAccount, h₁, h₂, if_false, if_true])
      active_ne_blocked f₇
      (by simp only [keys, List.map_cons, List.mem_cons, true_or, or_true])]
  simp only [credit, debit, updateAccount, h₁, h₂, s₂, if_false, if_true, f₈, f₉]

theorem testAfterDestroy_eq (A : String)
    (hAe : A ≠ GetEmissionIBAN NewPaymentService)
    (hAd : A ≠ GetDestructionIBAN NewPaymentService) :
    testAfterDestroy A =
      { accounts :=
          [ ("BY00000000000000000000000000001",
              { IBAN := "BY00000000000000000000000000001", Balance := 500,
                Status := StatusActive }),
            ("BY0000000000000000000000000002",
              { IBAN := "BY0000000000000000000000000002", Balance := 200,
                Status := StatusActive }),
            (A, { IBAN := A, Balance := 300, Status := StatusActive }) ]
        emissionIBAN := "BY00000000000000000000000000001"
        destructionIBAN := "BY0000000000000000000000000002" } := by
  rw [testAfterDestroy, testAfterDestroy_outcome A hAe hAd]

theorem testAfterBlock_transfer (A : String)
    (hAe : A ≠ GetEmissionIBAN NewPaymentService)
    (hAd : A ≠ GetDestructionIBAN NewPaymentService) :
    TransferMoney (testAfterBlock A) A (GetEmissionIBAN testAfterEmission) 100
      = (testAfterBlock A, Outcome.error LedgerError.oneAccountBlocked) := by
  have h₁ : ¬ "BY00000000000000000000000000001" = A := fun h => hAe h.symm
  have h₂ : ¬ "BY0000000000000000000000000002" = A := fun h => hAd h.symm
  have he : GetEmissionIBAN testAfterEmission = "BY00000000000000000000000000001" := by
    decide!
  rw [he]
  apply TransferMoney_blocked _ _ _ _
      { IBAN := A, Balance := 300, Status := StatusBlocked }
      { IBAN := "BY00000000000000000000000000001", Balance := 500, Status := StatusActive }
  · rw [testAfterBlock, testAfterDestroy_eq A hAe hAd]
    simp only [setStatus, updateAccount, getAccount, h₁, h₂, if_false, if_true]
  · rw [testAfterBlock, testAfterDestroy_eq A hAe hAd]
    simp only [setStatus, updateAccount, getAccount, h₁, h₂, if_false, if_true]
  · exact Or.inl rfl

/-- C15: the scenario of the test. From `NewPaymentService`, for every identifier `A` returned
by `CreateAccount` that differs from the emission and the destruction identifier:
`Emission(1000)` returns no error and the emission account holds 1000; the transfer of 500
to `A` returns no error and leaves 500 on each side; the transfer of 1000 back fails with the
insufficient-funds error; `DestroyMoney(A, 200)` returns no error and leaves `A` with 300, the
destruction account with 200 and the emission account with 500; once `A` is blocked, the
transfer of 100 from `A` fails with the account-blocked error and changes nothing. -/
theorem test_scenario (A : String)
    (hAe : A ≠ GetEmissionIBAN NewPaymentService)
    (hAd : A ≠ GetDestructionIBAN NewPaymentService) :
    (Emission NewPaymentService 1000).2 = Outcome.ok ∧
    balance testAfterEmission (GetEmissionIBAN testAfterEmission) = some 1000 ∧
    (CreateAccount testAfterEmission A).2 = A ∧
    (TransferMoney (testAfterCreate A) (GetEmissionIBAN testAfterEmission) A 500).2
      = Outcome.ok ∧
    balance (testAfterTransfer A) (GetEmissionIBAN testAfterEmission) = some 500 ∧
    balance (testAfterTransfer A) A = some 500 ∧
    (TransferMoney (testAfterTransfer A) A (GetEmissionIBAN testAfterEmission) 1000).2
      = Outcome.error LedgerError.insufficientFunds ∧
    (DestroyMoney (testAfterFailedTransfer A) A 200).2 = Outcome.ok ∧
    balance (testAfterDestroy A) A = some 300 ∧
    balance (testAfterDestroy A) (GetDestructionIBAN (testAfterDestroy A)) = some 200 ∧
    balance (testAfterDestroy A) (GetEmissionIBAN testAfterEmission) = some 500 ∧
    (TransferMoney (testAfterBlock A) A (GetEmissionIBAN testAfterEmission) 100).2
      = Outcome.error LedgerError.oneAccountBlocked ∧
    (TransferMoney (testAfterBlock A) A (GetEmissionIBAN testAfterEmission) 100).1
      = testAfterBlock A := by
  have h₁ : ¬ "BY00000000000000000000000000001" = A := fun h => hAe h.symm
  have h₂ : ¬ "BY0000000000000000000000000002" = A := fun h => hAd h.symm
  have s₁ : ¬ "BY00000000000000000000000000001" = "BY0000000000000000000000000002" := by
    decide
  obtain ⟨-, -, f₃, -, -, -, -, -, -⟩ := Float64.test_arithmetic
  have he : GetEmissionIBAN testAfterEmission = "BY00000000000000000000000000001" := by
    decide!
  have hT := testAfterTransfer_eq A hAe hAd
  have hD := testAfterDestroy_eq A hAe hAd
  have hB := testAfterBlock_transfer A hAe hAd
  refine ⟨by decide!, by decide!, rfl, ?_, ?_, ?_, ?_, ?_, ?_, ?_, ?_, ?_, ?_⟩
  · rw [he, testAfterCreate_eq A hAe hAd,
      TransferMoney_ok _ _ _ _
        { IBAN := "BY00000000000000000000000000001", Balance := 1000, Status := StatusActive }
        { IBAN := A, Balance := 0, Status := StatusActive }
        (by simp only [getAccount, if_true])
        (by simp only [getAccount, h₁, h₂, if_false, if_true])
        active_ne_blocked active_ne_blocked f₃]
  · rw [he, hT]
    simp only [balance, getAccount, if_true, Option.map_some']
  · rw [hT]
    simp only [balance, getAccount, h₁, h₂, if_false, if_true, Option.map_some']
  · rw [testAfterFailedTransfer_eq A hAe hAd]
  · rw [testAfterDestroy_outcome A hAe hAd]
  · rw [hD]
    simp only [balance, getAccount, h₁, h₂, if_false, if_true, Option.map_some']
  · rw [hD]
    simp only [balance, GetDestructionIBAN, getAccount, s₁, if_false, if_true,
      Option.map_some']
  · rw [he, hD]
    simp only [balance, getAccount, if_true, Option.map_some']
  · rw [hB]
  · rw [hB]

/-- C15 (witness): the scenario with `A = GenerateIBAN 7 42`: after the destruction the new
account holds 300. -/
theorem test_scenario_witness :
    balance (testAfterDestroy (GenerateIBAN 7 42)) (GenerateIBAN 7 42) = some 300 :=
  (test_scenario (GenerateIBAN 7 42) (by decide) (by decide)).2.2.2.2.2.2.2.2.1

/-! ## Non-positive amounts (C16) -/

theorem updateAccount_id (m : Accounts) (k : String) (f : Account → Account)
    (hf : ∀ a, f a = a) : updateAccount m k f = m := by
  induction m with
  | nil => rfl
  | cons e rest ih =>
    obtain ⟨k', a⟩ := e
    by_cases h : k' = k
    · simp [updateAccount, h, hf]
    · simp [updateAccount, h, ih]

theorem updateAccount_updateAccount (m : Accounts) (k : String) (f g : Account → Account) :
    updateAccount (updateAccount m k f) k g = updateAccount m k (fun a => g (f a)) := by
  induction m with
  | nil => rfl
  | cons e rest ih =>
    obtain ⟨k', a⟩ := e
    by_cases h : k' = k
    · simp [updateAccount, h]
    · simp [updateAccount, h, ih]

theorem updateAccount_eq_self (m : Accounts) (k : String) (f : Account → Account)
    (a : Account) (h : getAccount m k = some a) (hf : f a = a) : updateAccount m k f = m := by
  induction m with
  | nil => rfl
  | cons e rest ih =>
    obtain ⟨k', a'⟩ := e
    by_cases hk : k' = k
    · simp only [getAccount, hk, if_true, Option.some.injEq] at h
      subst h
      simp only [updateAccount, hk, if_true, hf]
    · simp only [getAccount, hk, if_false] at h
      simp only [updateAccount, hk, if_false, ih h]

theorem Float64.abs_neg_one : Float64.abs (-1) = 1 := by decide!

/-- C16 (counterexample): in `largeLedger` the emission and the destruction account are
distinct, active and hold `2^53` each; `TransferMoney` of the amount `-1` from the emission to
the destruction account returns no error, and the emission account holds `2^53` afterwards
as before: its balance is not raised by `|amount| = 1`. -/
theorem TransferMoney_negative_amount_rounds :
    GetEmissionIBAN largeLedger ≠ GetDestructionIBAN largeLedger ∧
    status largeLedger (GetEmissionIBAN largeLedger) = some StatusActive ∧
    status largeLedger (GetDestructionIBAN largeLedger) = some StatusActive ∧
    balance largeLedger (GetEmissionIBAN largeLedger) = some 9007199254740992 ∧
    (0 : Float64) ≤ 9007199254740992 ∧
    (-1 : Float64) < 0 ∧
    Float64.toRat (Float64.abs (-1)) = 1 ∧
    (TransferMoney largeLedger (GetEmissionIBAN largeLedger) (GetDestructionIBAN largeLedger)
      (-1)).2 = Outcome.ok ∧
    balance
        (TransferMoney largeLedger (GetEmissionIBAN largeLedger)
          (GetDestructionIBAN largeLedger) (-1)).1
        (GetEmissionIBAN largeLedger) = some 9007199254740992 :=
  ⟨by decide!, by decide!, by decide!, by decide!, by decide!, by decide!,
    (congrArg Float64.toRat Float64.abs_neg_one).trans Float64.toRat_one, by decide!, by decide!⟩

/-- C16 (amended): `TransferMoney` between two distinct existing accounts, neither blocked,
with `balance(from) ≥ 0` and `amount ≤ 0` returns no error; with `amount = 0` the service is
unchanged; with `amount < 0` the balance of `from` becomes the `float64` sum
`balance(from) + |amount|` and the balance of `to` the `float64` difference
`balance(to) - |amount|`, whatever the balance of `to` is; these are the exact sum and the
exact difference whenever those are `float64` values. -/
theorem TransferMoney_nonpositive_amount (ps : PaymentService) (fromIBAN toIBAN : String)
    (amount : Float64) (fromAccount toAccount : Account)
    (hne : fromIBAN ≠ toIBAN)
    (hfrom : getAccount ps.accounts fromIBAN = some fromAccount)
    (hto : getAccount ps.accounts toIBAN = some toAccount)
    (hfs : fromAccount.Status ≠ StatusBlocked) (hts : toAccount.Status ≠ StatusBlocked)
    (hnn : 0 ≤ fromAccount.Balance) (hamt : amount ≤ 0) :
    (TransferMoney ps fromIBAN toIBAN amount).2 = Outcome.ok ∧
    (amount = 0 → (TransferMoney ps fromIBAN toIBAN amount).1 = ps) ∧
    (amount < 0 →
      getAccount (TransferMoney ps fromIBAN toIBAN amount).1.accounts fromIBAN
        = some { IBAN := fromAccount.IBAN,
                 Balance := fromAccount.Balance + Float64.abs amount,
                 Status := fromAccount.Status } ∧
      getAccount (TransferMoney ps fromIBAN toIBAN amount).1.accounts toIBAN
        = some { IBAN := toAccount.IBAN,
                 Balance := toAccount.Balance - Float64.abs amount,
                 Status := toAccount.Status } ∧
      (Float64.isExactAdd fromAccount.Balance (Float64.abs amount) = true →
        (fromAccount.Balance + Float64.abs amount).toRat
          = fromAccount.Balance.toRat + (Float64.abs amount).toRat) ∧
      (Float64.isExactSub toAccount.Balance (Float64.abs amount) = true →
        (toAccount.Balance - Float64.abs amount).toRat
          = toAccount.Balance.toRat - (Float64.abs amount).toRat)) := by
  rw [TransferMoney_ok ps fromIBAN toIBAN amount fromAccount toAccount hfrom hto hfs hts
    (Float64.not_lt_of_nonneg_of_nonpos _ _ hnn hamt)]
  refine ⟨rfl, ?_, ?_⟩
  · intro h0
    have hsub : ∀ x : Float64, x - amount = x := fun x => h0 ▸ Float64.sub_zero x
    have hadd : ∀ x : Float64, x + amount = x := fun x => h0 ▸ Float64.add_zero x
    simp only [credit, debit, hsub, hadd]
    rw [updateAccount_id _ _ _ (fun _ => rfl), updateAccount_id _ _ _ (fun _ => rfl)]
  · intro hneg
    have habs : Float64.abs amount = Float64.neg amount := Float64.abs_eq_neg amount hneg
    have h₁ : fromAccount.Balance + Float64.abs amount = fromAccount.Balance - amount := by
      rw [habs, Float64.sub_def, Float64.add_def]
    have h₂ : toAccount.Balance - Float64.abs amount = toAccount.Balance + amount := by
      rw [habs, Float64.sub_def, Float64.neg_neg, Float64.add_def]
    refine ⟨?_, ?_, Float64.toRat_add_of_exact _ _, Float64.toRat_sub_of_exact _ _⟩
    · simp only [credit, debit]
      rw [getAccount_updateAccount_ne _ _ _ _ hne, getAccount_updateAccount_self, hfrom, h₁]
      rfl
    · simp only [credit, debit]
      rw [getAccount_updateAccount_self, getAccount_updateAccount_ne _ _ _ _ (Ne.symm hne),
        hto, h₂]
      rfl

/-- C16 (witness): on `fundedLedger` the transfer of `-700` from the new account (balance 500)
to the destruction account (balance 0) returns no error and leaves the destruction account
with `0 - |-700|`. -/
theorem TransferMoney_nonpositive_amount_witness :
    (TransferMoney fundedLedger "BY07CBDC00000000000000000042"
        "BY0000000000000000000000000002" (-700)).2 = Outcome.ok ∧
    getAccount
        (TransferMoney fundedLedger "BY07CBDC00000000000000000042"
          "BY0000000000000000000000000002" (-700)).1.accounts
        "BY0000000000000000000000000002"
      = some { IBAN := "BY0000000000000000000000000002",
               Balance := 0 - Float64.abs (-700), Status := StatusActive } :=
  have h :=
    TransferMoney_nonpositive_amount fundedLedger "BY07CBDC00000000000000000042"
      "BY0000000000000000000000000002" (-700)
      { IBAN := "BY07CBDC00000000000000000042", Balance := 500, Status := StatusActive }
      { IBAN := "BY0000000000000000000000000002", Balance := 0, Status := StatusActive }
      (by decide) (by decide!) (by decide!) (by decide) (by decide) (by decide!) (by decide!)
  ⟨h.1, (h.2.2 (by decide!)).2.1⟩

/-! ## Debit and credit of the same record (C19) -/

/-- C19 (counterexample): in `unevenLedger` the emission account is active and holds
`2^53 + 2`; `TransferMoney` of the amount `1` from the emission account to itself returns no
error and leaves it with `2^53`: the state is not unchanged. -/
theorem self_transfer_changes_balance :
    status unevenLedger (GetEmissionIBAN unevenLedger) = some StatusActive ∧
    balance unevenLedger (GetEmissionIBAN unevenLedger) = some 9007199254740994 ∧
    (1 : Float64) ≤ 9007199254740994 ∧
    (TransferMoney unevenLedger (GetEmissionIBAN unevenLedger) (GetEmissionIBAN unevenLedger)
      1).2 = Outcome.ok ∧
    balance
        (TransferMoney unevenLedger (GetEmissionIBAN unevenLedger)
          (GetEmissionIBAN unevenLedger) 1).1
        (GetEmissionIBAN unevenLedger) = some 9007199254740992 ∧
    (TransferMoney unevenLedger (GetEmissionIBAN unevenLedger) (GetEmissionIBAN unevenLedger)
      1).1 ≠ unevenLedger :=
  ⟨by decide!, by decide!, by decide!, by decide!, by decide!, by decide!⟩

/-- C19 (amended): `TransferMoney(a, a, amount)` on an existing, non-blocked account `a` with
`balance(a) ≥ amount` returns no error, leaves every other record and the keys unchanged and
turns the balance of `a` into the `float64` value `(balance(a) - amount) + amount`; when the
difference `balance(a) - amount` involves no rounding, the whole service is unchanged.
Likewise `DestroyMoney(destructionIBAN, amount)`, when it returns no error and the
difference of the destruction account's balance and `amount` involves no rounding, leaves the
whole service unchanged. -/
theorem same_account_cancels (ps : PaymentService) (amount : Float64) :
    (∀ a account, getAccount ps.accounts a = some account →
      account.Status ≠ StatusBlocked → amount ≤ account.Balance →
      (TransferMoney ps a a amount).2 = Outcome.ok ∧
      getAccount (TransferMoney ps a a amount).1.accounts a
        = some { IBAN := account.IBAN, Balance := account.Balance - amount + amount,
                 Status := account.Status } ∧
      (∀ k, k ≠ a →
        getAccount (TransferMoney ps a a amount).1.accounts k = getAccount ps.accounts k) ∧
      keys (TransferMoney ps a a amount).1.accounts = keys ps.accounts ∧
      (Float64.isExactSub account.Balance amount = true →
        TransferMoney ps a a amount = (ps, Outcome.ok))) ∧
    (∀ sink, getAccount ps.accounts ps.destructionIBAN = some sink →
      (DestroyMoney ps ps.destructionIBAN amount).2 = Outcome.ok →
      Float64.isExactSub sink.Balance amount = true →
      (DestroyMoney ps ps.destructionIBAN amount).1 = ps) := by
  have hcancel : ∀ k account, getAccount ps.accounts k = some account →
      Float64.isExactSub account.Balance amount = true →
      credit (debit ps.accounts k amount) k amount = ps.accounts := by
    intro k account hk hex
    simp only [credit, debit]
    rw [updateAccount_updateAccount]
    apply updateAccount_eq_self _ _ _ account hk
    simp only [Float64.sub_add_cancel_of_exact _ _ hex]
  constructor
  · intro a account ha hs hbal
    rw [TransferMoney_ok ps a a amount account account ha ha hs hs
      (Float64.not_lt_of_le _ _ hbal)]
    refine ⟨rfl, ?_, ?_, ?_, ?_⟩
    · simp only [credit, debit]
      rw [getAccount_updateAccount_self, getAccount_updateAccount_self, ha]
      rfl
    · intro k hk
      simp only [credit, debit]
      rw [getAccount_updateAccount_ne _ _ _ _ hk, getAccount_updateAccount_ne _ _ _ _ hk]
    · simp only [credit, debit, keys_updateAccount]
    · intro hex
      rw [hcancel a account ha hex]
  · intro sink hsink hok hex
    rcases DestroyMoney_cases ps ps.destructionIBAN amount with ⟨h, -⟩ | ⟨_, -, -, -, h⟩
    · exact h
    · rcases h with ⟨-, h⟩ | ⟨-, h⟩
      · rw [h, hcancel _ sink hsink hex]
      · rw [h] at hok; simp at hok

/-- C19 (witness): on `fundedLedger` the transfer of 500 from the new account to itself and
the destruction of 0 from the destruction account leave `fundedLedger` as it was. -/
theorem same_account_cancels_witness :
    TransferMoney fundedLedger "BY07CBDC00000000000000000042"
        "BY07CBDC00000000000000000042" 500 = (fundedLedger, Outcome.ok) ∧
    (DestroyMoney fundedLedger fundedLedger.destructionIBAN 0).1 = fundedLedger :=
  ⟨((same_account_cancels fundedLedger 500).1 "BY07CBDC00000000000000000042"
      { IBAN := "BY07CBDC00000000000000000042", Balance := 500, Status := StatusActive }
      (by decide!) (by decide) (by decide!)).2.2.2.2 (by decide!),
   (same_account_cancels fundedLedger 0).2
      { IBAN := "BY0000000000000000000000000002", Balance := 0, Status := StatusActive }
      (by decide!) (by decide!) (by decide!)⟩

/-! ## Non-negativity under non-negative finite amounts (C20) -/

theorem foldl_append_snd (visited : Accounts) (acc : List Account) :
    visited.foldl (fun accounts e => accounts ++ [e.2]) acc
      = acc ++ visited.map Prod.snd := by
  induction visited generalizing acc with
  | nil => simp
  | cons e rest ih => simp [ih]

theorem collectAccounts_eq (visited : Accounts) :
    collectAccounts visited = visited.map Prod.snd := by
  simp [collectAccounts, foldl_append_snd]

theorem getAccount_mem (m : Accounts) (k : String) (a : Account)
    (h : getAccount m k = some a) : a ∈ m.map Prod.snd := by
  induction m with
  | nil => simp [getAccount] at h
  | cons e rest ih =>
    obtain ⟨k', a'⟩ := e
    by_cases hk : k' = k
    · simp only [getAccount, hk, if_true, Option.some.injEq] at h
      simp [h]
    · simp only [getAccount, hk, if_false] at h
      simp [ih h]

/-- C17: when `range` yields every entry of the account map once (`visited` is a permutation
of the entries), `GetAllAccounts` leaves the service unchanged, and the slice it hands to the
serializer has as many elements as the map has accounts, is a permutation of the records of
the map, and contains the record stored under every key. -/
theorem GetAllAccounts_snapshot (ps : PaymentService) (visited : Accounts)
    (hv : visited.Perm ps.accounts) :
    (GetAllAccounts ps visited).1 = ps ∧
    (GetAllAccounts ps visited).2.length = ps.accounts.length ∧
    (GetAllAccounts ps visited).2.Perm (ps.accounts.map Prod.snd) ∧
    (∀ k a, getAccount ps.accounts k = some a → a ∈ (GetAllAccounts ps visited).2) := by
  have hperm : (collectAccounts visited).Perm (ps.accounts.map Prod.snd) := by
    rw [collectAccounts_eq]
    exact hv.map _
  refine ⟨rfl, ?_, hperm, ?_⟩
  · have := hperm.length_eq
    simpa using this
  · intro k a h
    exact hperm.symm.subset (getAccount_mem _ _ _ h)

/-- C17 (witness): the ledger of `NewPaymentService` visited destruction account first. -/
theorem GetAllAccounts_snapshot_witness :
    (GetAllAccounts NewPaymentService NewPaymentService.accounts.reverse).2.length = 2 :=
  (GetAllAccounts_snapshot NewPaymentService NewPaymentService.accounts.reverse
    (List.reverse_perm _)).2.1

end PaymentSystem
